import Mathlib

/-!
# Verification of the FOGIS referee-stats data-import pipeline

A shallow embedding of `referee_stats_fogis/core/importer.py` (the
`DataImporter` class) together with proofs about its behaviour.

Conventions of the embedding:

* Python dictionaries holding one source record are embedded as structures
  whose fields are `Option`-typed; `dict.get(key)` is the field itself and
  `dict.get(key, default)` is `field.getD default`.
* Python truthiness of an optional integer / string field is made explicit
  (`none`, `some 0` and `some ""` are falsy).
* The SQLAlchemy session is embedded as an explicit `Store` of row lists;
  `query(...).filter(...).first()` is `List.find?`, mutation of the row
  object found by a query is `updateFirst`, and `session.add` appends.
  Auto-generated primary keys come from a `nextId` counter in the store.
* Exceptions are embedded as `Option`/explicit outcome values.
-/

namespace RefereeStats

/-- Python truthiness of an optional integer (`None` and `0` are falsy). -/
def truthyInt : Option Int → Bool
  | none => false
  | some n => n ≠ 0

/-- Python truthiness of an optional string (`None` and `""` are falsy). -/
def truthyStr : Option String → Bool
  | none => false
  | some s => s ≠ ""

/-- Python `str(...)` applied to an integer. -/
def pyStr (n : Int) : String := toString n

/-- Replace the first element satisfying `p` by its image under `f`,
embedding mutation of the row returned by `query(...).first()`. -/
def updateFirst (p : α → Bool) (f : α → α) : List α → List α
  | [] => []
  | x :: xs => if p x then f x :: xs else x :: updateFirst p f xs

@[simp] theorem updateFirst_nil (p : α → Bool) (f : α → α) :
    updateFirst p f [] = [] := rfl

theorem updateFirst_cons (p : α → Bool) (f : α → α) (x : α) (xs : List α) :
    updateFirst p f (x :: xs) =
      if p x then f x :: xs else x :: updateFirst p f xs := rfl

@[simp] theorem length_updateFirst (p : α → Bool) (f : α → α) (l : List α) :
    (updateFirst p f l).length = l.length := by
  induction l with
  | nil => rfl
  | cons x xs ih =>
      rw [updateFirst_cons]
      by_cases h : p x <;> simp [h, ih]

/-- Python `s.split(sep)` for a one-character separator, on a list of
characters (splitting on every occurrence, keeping empty pieces). -/
def splitChAux (sep : Char) (acc : List Char) : List Char → List (List Char)
  | [] => [acc.reverse]
  | c :: rest =>
      if c = sep then acc.reverse :: splitChAux sep [] rest
      else splitChAux sep (c :: acc) rest

/-- Python `s.split(" ")`. -/
def pySplitSp (s : String) : List String :=
  (splitChAux ' ' [] s.data).map String.mk

/-- Python `" ".join(l)`. -/
def pyJoinSp (l : List String) : String := String.intercalate " " l

/-- Python `sub in s` (substring containment) on character lists. -/
def containsSub (needle hay : List Char) : Bool :=
  hay.tails.any (fun t => needle.isPrefixOf t)

/-- Python `s.lower()`, restricted to ASCII case mapping (the vocabulary
terms compared against lowered names in the importer are ASCII). -/
def pyLower (s : String) : String := String.mk (s.data.map Char.toLower)

/-- The numeric value of a digit string. -/
def digitsToNat (l : List Char) : Nat :=
  l.foldl (fun n c => n * 10 + (c.toNat - 48)) 0

section TypeClassifier

/-- A decoded JSON value, the input shape of `_determine_data_type`.
Objects are association lists from string keys to values. -/
inductive JValue where
  | jnull : JValue
  | jbool : Bool → JValue
  | jnum : Int → JValue
  | jstr : String → JValue
  | jarr : List JValue → JValue
  | jobj : List (String × JValue) → JValue

/-- A Python exception escaping the embedded fragment. -/
inductive PyErr where
  | typeError : PyErr
  deriving DecidableEq

/-- Python `x == "k"` for a JSON value `x` and a string literal (only a
string equal to the literal compares equal). -/
def JValue.eqStr : JValue → String → Bool
  | .jstr s, k => s = k
  | _, _ => false

/-- Python `"k" in x`: key membership for dicts, substring test for strings,
element membership for lists, and a `TypeError` for the remaining shapes. -/
def pyContains (x : JValue) (k : String) : Except PyErr Bool :=
  match x with
  | .jobj fields => .ok (fields.any (fun kv => kv.1 = k))
  | .jstr s => .ok (containsSub k.data s.data)
  | .jarr xs => .ok (xs.any (fun v => v.eqStr k))
  | _ => .error .typeError

/-- Python `x["k"]`: value lookup for dicts (the callers only index after a
successful `in` test), a `TypeError` for strings and lists indexed by a
string, and a `TypeError` for the remaining shapes. -/
def pyIndex (x : JValue) (k : String) : Except PyErr JValue :=
  match x with
  | .jobj fields =>
      match fields.find? (fun kv => kv.1 = k) with
      | some kv => .ok kv.2
      | none => .error .typeError
  | _ => .error .typeError

/-- `DataImporter._determine_data_type` (importer.py lines 76-101): classify
a decoded JSON value into a type tag and a normalized record list. -/
def determineDataType (data : JValue) : Except PyErr (JValue × List JValue) :=
  match data with
  | .jarr (x :: xs) =>
      match pyContains x "__type" with
      | .error e => .error e
      | .ok true =>
          match pyIndex x "__type" with
          | .error e => .error e
          | .ok t => .ok (t, x :: xs)
      | .ok false => .ok (.jstr "", x :: xs)
  | .jobj fields =>
      match pyContains (.jobj fields) "__type" with
      | .error e => .error e
      | .ok true =>
          match pyIndex (.jobj fields) "__type" with
          | .error e => .error e
          | .ok t => .ok (t, [.jobj fields])
      | .ok false => .ok (.jstr "", [.jobj fields])
  | _ => .ok (.jstr "", [])

end TypeClassifier

section SeasonExtraction

/-- A word character in the sense of the regex `\b` boundary (ASCII
alphanumerics and underscore). -/
def isWordChar (c : Char) : Bool := c.isAlphanum || c = '_'

/-- Whether a `\b(20\d{2})\b` match starts at the head of `l`, whose
predecessor character is `prev` (`none` at the start of the string): the four
characters `2`, `0`, digit, digit, preceded and followed by a word boundary. -/
def seasonHere (prev : Option Char) (l : List Char) : Option String :=
  match l with
  | c0 :: c1 :: c2 :: c3 :: rest =>
      if c0 = '2' && c1 = '0' && c2.isDigit && c3.isDigit
          && (match prev with | none => true | some p => !isWordChar p)
          && (match rest with | [] => true | r :: _ => !isWordChar r) then
        some (String.mk [c0, c1, c2, c3])
      else none
  | _ => none

/-- Leftmost `\b(20\d{2})\b` match in the suffix `l`, `prev` being the
character just before the suffix. -/
def findSeason (prev : Option Char) : List Char → Option String
  | [] => none
  | c :: rest =>
      match seasonHere prev (c :: rest) with
      | some s => some s
      | none => findSeason (some c) rest

/-- `DataImporter._extract_season` (importer.py lines 636-651):
`re.search(r"\b(20\d{2})\b", name)`, returning the captured group of the
leftmost match, or `""` when there is none. -/
def extractSeason (competitionName : String) : String :=
  match findSeason none competitionName.data with
  | some s => s
  | none => ""

end SeasonExtraction

section Records

/-- The person-related keys of a flat FOGIS record, read by
`_get_or_create_person` (referee-assignment entries and participant records
carry these keys alongside their own). -/
structure PersonData where
  personid : Option Int := none
  personnamn : Option String := none
  namn : Option String := none
  fornamn : Option String := none
  efternamn : Option String := none
  personnr : Option String := none
  epostadress : Option String := none
  mobiltelefon : Option String := none
  adress : Option String := none
  postnr : Option String := none
  postort : Option String := none
  land : Option String := none
  deriving DecidableEq, Repr

/-- One entry of a match record's `domaruppdraglista`. -/
structure RefAssignmentRecord where
  domaruppdragid : Option Int := none
  domareid : Option Int := none
  domarrollid : Option Int := none
  domarrollnamn : Option String := none
  domarrollkortnamn : Option String := none
  domaruppdragstatusnamn : Option String := none
  person : PersonData := {}
  deriving DecidableEq, Repr

/-- A raw `MatchJSON` record (the keys `_import_matches` reads). -/
structure MatchRecord where
  matchid : Option Int := none
  matchnr : Option String := none
  fotbollstypid : Option Int := none
  lag1lagid : Option Int := none
  lag1foreningid : Option Int := none
  lag1namn : Option String := none
  lag2lagid : Option Int := none
  lag2foreningid : Option Int := none
  lag2namn : Option String := none
  anlaggningid : Option Int := none
  anlaggningnamn : Option String := none
  anlaggningLatitud : Option Int := none
  anlaggningLongitud : Option Int := none
  speldatum : Option String := none
  avsparkstid : Option String := none
  tavlingid : Option Int := none
  tavlingnamn : Option String := none
  tavlingskategoriid : Option Int := none
  tavlingskategorinamn : Option String := none
  tavlingKonId : Option Int := none
  tavlingAlderskategori : Option Int := none
  tavlingnr : Option String := none
  antalaskadare : Option Int := none
  wo : Option Bool := none
  domaruppdraglista : Option (List RefAssignmentRecord) := none
  deriving DecidableEq, Repr

/-- A raw `MatchresultatJSON` record. -/
structure ResultRecord where
  matchid : Option Int := none
  matchresultattypid : Option Int := none
  matchresultatid : Option Int := none
  matchresultattypnamn : Option String := none
  matchlag1mal : Option Int := none
  matchlag2mal : Option Int := none
  deriving DecidableEq, Repr

/-- A raw `MatchhandelseJSON` record. -/
structure EventRecord where
  matchid : Option Int := none
  matchhandelsetypid : Option Int := none
  matchdeltagareid : Option Int := none
  matchlagid : Option Int := none
  matchhandelseid : Option Int := none
  matchhandelsetypnamn : Option String := none
  matchhandelsetypmedforstallningsandring : Option Bool := none
  matchminut : Option Int := none
  period : Option Int := none
  kommentar : Option String := none
  hemmamal : Option Int := none
  bortamal : Option Int := none
  planpositionx : Option Int := none
  planpositiony : Option Int := none
  relateradTillMatchhandelseID : Option Int := none
  deriving DecidableEq, Repr

/-- A raw `MatchdeltagareJSON` record. -/
structure ParticipantRecord where
  matchid : Option Int := none
  matchlagid : Option Int := none
  spelareid : Option Int := none
  matchdeltagareid : Option Int := none
  person : PersonData := {}
  trojnummer : Option Int := none
  lagkapten : Option Bool := none
  ersattare : Option Bool := none
  byte1 : Option Int := none
  byte2 : Option Int := none
  arSpelandeLedare : Option Bool := none
  ansvarig : Option Bool := none
  spelareAntalAckumuleradeVarningar : Option Int := none
  spelareAvstangningBeskrivning : Option String := none
  deriving DecidableEq, Repr

end Records

section Rows

/-!
Rows of the relational schema (`data/models.py`), restricted to the columns
the import pipeline reads or writes.
-/

structure VenueRow where
  id : Int
  name : String
  latitude : Option Int := none
  longitude : Option Int := none
  deriving DecidableEq, Repr

structure CategoryRow where
  id : Int
  name : String
  deriving DecidableEq, Repr

structure CompetitionRow where
  id : Int
  name : String
  season : String
  categoryId : Option Int := none
  genderId : Option Int := none
  ageCategoryId : Option Int := none
  fogisId : Option String := none
  deriving DecidableEq, Repr

structure ClubRow where
  id : Int
  name : String
  deriving DecidableEq, Repr

structure TeamRow where
  id : Int
  name : String
  clubId : Int
  fogisId : Option String := none
  deriving DecidableEq, Repr

structure MatchRow where
  id : Int
  matchNr : String
  date : String
  time : String
  venueId : Option Int := none
  competitionId : Option Int := none
  footballTypeId : Int
  spectators : Option Int := none
  status : String
  isWalkover : Bool
  fogisId : Option String := none
  deriving DecidableEq, Repr

structure MatchTeamRow where
  id : Int
  matchId : Int
  teamId : Int
  isHomeTeam : Bool
  deriving DecidableEq, Repr

structure PersonRow where
  id : Int
  firstName : String
  lastName : String
  personalNumber : Option String := none
  email : Option String := none
  phone : Option String := none
  address : Option String := none
  postalCode : Option String := none
  city : Option String := none
  country : String
  fogisId : Option String := none
  deriving DecidableEq, Repr

structure RefereeRow where
  id : Int
  personId : Int
  deriving DecidableEq, Repr

structure RefereeRoleRow where
  id : Int
  name : String
  shortName : String
  deriving DecidableEq, Repr

structure RefereeAssignmentRow where
  id : Int
  matchId : Int
  refereeId : Int
  roleId : Int
  status : String
  fogisId : Option String := none
  deriving DecidableEq, Repr

structure ResultTypeRow where
  id : Int
  name : String
  deriving DecidableEq, Repr

structure MatchResultRow where
  id : Int
  matchId : Int
  resultTypeId : Int
  homeGoals : Int
  awayGoals : Int
  fogisId : Option String := none
  deriving DecidableEq, Repr

structure EventTypeRow where
  id : Int
  name : String
  isGoal : Bool
  isPenalty : Bool
  isCard : Bool
  isSubstitution : Bool
  affectsScore : Bool
  deriving DecidableEq, Repr

structure MatchEventRow where
  id : Int
  matchId : Int
  participantId : Int
  eventTypeId : Int
  matchTeamId : Int
  minute : Option Int := none
  period : Option Int := none
  comment : String
  homeScore : Int
  awayScore : Int
  positionX : Int
  positionY : Int
  relatedEventId : Option Int := none
  fogisId : Option String := none
  deriving DecidableEq, Repr

structure MatchParticipantRow where
  id : Int
  matchId : Int
  matchTeamId : Int
  playerId : Int
  jerseyNumber : Option Int := none
  isCaptain : Bool
  isSubstitute : Bool
  substitutionInMinute : Option Int := none
  substitutionOutMinute : Option Int := none
  isPlayingLeader : Bool
  isResponsible : Bool
  accumulatedWarnings : Int
  suspensionDescription : String
  fogisId : Option String := none
  deriving DecidableEq, Repr

/-- The relational store reachable through the SQLAlchemy session: one row
list per table, plus a counter supplying auto-generated primary keys. -/
structure Store where
  venues : List VenueRow := []
  categories : List CategoryRow := []
  competitions : List CompetitionRow := []
  clubs : List ClubRow := []
  teams : List TeamRow := []
  matchRows : List MatchRow := []
  matchTeams : List MatchTeamRow := []
  persons : List PersonRow := []
  referees : List RefereeRow := []
  refereeRoles : List RefereeRoleRow := []
  refereeAssignments : List RefereeAssignmentRow := []
  resultTypes : List ResultTypeRow := []
  matchResults : List MatchResultRow := []
  eventTypes : List EventTypeRow := []
  matchEvents : List MatchEventRow := []
  matchParticipants : List MatchParticipantRow := []
  nextId : Int := 1
  deriving DecidableEq, Repr

/-- The empty database. -/
def emptyStore : Store := {}

/-- Draw one auto-generated primary key from the store's counter. -/
def Store.genId (st : Store) : Int × Store :=
  (st.nextId, { st with nextId := st.nextId + 1 })

end Rows

section Resolvers

/-- Gregorian leap year, as datetime validates it. -/
def isLeapYear (y : Nat) : Bool :=
  (y % 4 = 0 && y % 100 ≠ 0) || y % 400 = 0

/-- Days in a month, as datetime validates it. -/
def daysInMonth (y m : Nat) : Nat :=
  if m = 2 then (if isLeapYear y then 29 else 28)
  else if m = 4 || m = 6 || m = 9 || m = 11 then 30
  else 31

/-- `DataImporter._parse_date` validity: whether
`datetime.strptime(s, "%Y-%m-%d")` succeeds (1-4 digit year at least 1,
1-2 digit month and day, and a valid day of the given month). -/
def validYMD (s : String) : Bool :=
  match splitChAux '-' [] s.data with
  | [y, m, d] =>
      !y.isEmpty && y.all Char.isDigit && decide (y.length ≤ 4)
        && !m.isEmpty && m.all Char.isDigit && decide (m.length ≤ 2)
        && !d.isEmpty && d.all Char.isDigit && decide (d.length ≤ 2)
        && decide (1 ≤ digitsToNat y)
        && decide (1 ≤ digitsToNat m) && decide (digitsToNat m ≤ 12)
        && decide (1 ≤ digitsToNat d)
        && decide (digitsToNat d ≤ daysInMonth (digitsToNat y) (digitsToNat m))
  | _ => false

/-- `DataImporter._parse_date` (importer.py lines 620-634): keep a parseable
`YYYY-MM-DD` string, substitute the current date (`now`) otherwise. -/
def parseDate (now : String) (s : String) : String :=
  if validYMD s then s else now

/-- `DataImporter._get_or_create_venue` (importer.py lines 251-285). -/
def getOrCreateVenue (st : Store) (r : MatchRecord) : Store × Option VenueRow :=
  if !(truthyInt r.anlaggningid && truthyStr r.anlaggningnamn) then (st, none)
  else
    let vid := r.anlaggningid.getD 0
    let vname := r.anlaggningnamn.getD ""
    let upd : VenueRow → VenueRow := fun v =>
      { v with name := vname, latitude := r.anlaggningLatitud,
               longitude := r.anlaggningLongitud }
    match st.venues.find? (fun v => v.id = vid) with
    | some v =>
        ({ st with venues := updateFirst (fun w => w.id = vid) upd st.venues },
         some (upd v))
    | none =>
        let v : VenueRow := { id := vid, name := vname,
                              latitude := r.anlaggningLatitud,
                              longitude := r.anlaggningLongitud }
        ({ st with venues := st.venues ++ [v] }, some v)

/-- `DataImporter._get_or_create_competition` (importer.py lines 287-350),
including the embedded get-or-create of the competition category (an
existing category is returned untouched). -/
def getOrCreateCompetition (st : Store) (r : MatchRecord) :
    Store × Option CompetitionRow :=
  if !(truthyInt r.tavlingid && truthyStr r.tavlingnamn) then (st, none)
  else
    let cid := r.tavlingid.getD 0
    let cname := r.tavlingnamn.getD ""
    let existing := st.competitions.find? (fun c => c.id = cid)
    let (st1, category) :=
      if truthyInt r.tavlingskategoriid && truthyStr r.tavlingskategorinamn then
        let kid := r.tavlingskategoriid.getD 0
        match st.categories.find? (fun k => k.id = kid) with
        | some k => (st, some k)
        | none =>
            let k : CategoryRow := { id := kid,
                                     name := r.tavlingskategorinamn.getD "" }
            ({ st with categories := st.categories ++ [k] }, some k)
      else (st, none)
    let upd : CompetitionRow → CompetitionRow := fun c =>
      { c with name := cname, season := extractSeason cname,
               categoryId := category.map (·.id), genderId := r.tavlingKonId,
               ageCategoryId := r.tavlingAlderskategori,
               fogisId := r.tavlingnr }
    match existing with
    | some c =>
        ({ st1 with competitions :=
             updateFirst (fun x => x.id = cid) upd st1.competitions },
         some (upd c))
    | none =>
        let c : CompetitionRow :=
          { id := cid, name := cname, season := extractSeason cname,
            categoryId := category.map (·.id), genderId := r.tavlingKonId,
            ageCategoryId := r.tavlingAlderskategori, fogisId := r.tavlingnr }
        ({ st1 with competitions := st1.competitions ++ [c] }, some c)

/-- Club name derived from a team name on club creation
(`_get_or_create_team`): the part before the first space when the name
contains a space, the whole name otherwise. -/
def clubNameOf (teamName : String) : String :=
  if teamName.data.contains ' ' then (pySplitSp teamName).headD ""
  else teamName

/-- `DataImporter._get_or_create_team` (importer.py lines 352-402), reading
the `lag1*` keys for the home team and the `lag2*` keys for the away team,
and creating the owning club on demand. -/
def getOrCreateTeam (st : Store) (r : MatchRecord) (isHome : Bool) :
    Store × Option TeamRow :=
  let teamId? := if isHome then r.lag1lagid else r.lag2lagid
  let teamName? := if isHome then r.lag1namn else r.lag2namn
  let clubId? := if isHome then r.lag1foreningid else r.lag2foreningid
  if !(truthyInt teamId? && truthyStr teamName? && truthyInt clubId?) then
    (st, none)
  else
    let tid := teamId?.getD 0
    let tname := teamName?.getD ""
    let kid := clubId?.getD 0
    let existingTeam := st.teams.find? (fun t => t.id = tid)
    let (st1, club) :=
      match st.clubs.find? (fun c => c.id = kid) with
      | some c => (st, c)
      | none =>
          let c : ClubRow := { id := kid, name := clubNameOf tname }
          ({ st with clubs := st.clubs ++ [c] }, c)
    let upd : TeamRow → TeamRow := fun t =>
      { t with name := tname, clubId := club.id, fogisId := some (pyStr tid) }
    match existingTeam with
    | some t =>
        ({ st1 with teams := updateFirst (fun x => x.id = tid) upd st1.teams },
         some (upd t))
    | none =>
        let t : TeamRow := { id := tid, name := tname, clubId := club.id,
                             fogisId := some (pyStr tid) }
        ({ st1 with teams := st1.teams ++ [t] }, some t)

/-- One home- or away-side of `_create_or_update_match_teams`
(importer.py lines 404-454). -/
def upsertMatchTeam (st : Store) (matchId : Int) (team : Option TeamRow)
    (isHome : Bool) : Store :=
  match team with
  | none => st
  | some t =>
      let p : MatchTeamRow → Bool := fun mt =>
        mt.matchId = matchId && mt.teamId = t.id
      match st.matchTeams.find? p with
      | some _ =>
          let newMts :=
            updateFirst p (fun mt => { mt with isHomeTeam := isHome })
              st.matchTeams
          { st with matchTeams := newMts }
      | none =>
          let (newId, st') := st.genId
          { st' with matchTeams := st'.matchTeams ++
              [{ id := newId, matchId := matchId, teamId := t.id,
                 isHomeTeam := isHome }] }

/-- `DataImporter._create_or_update_match_teams`. -/
def createOrUpdateMatchTeams (st : Store) (matchId : Int)
    (homeTeam awayTeam : Option TeamRow) : Store :=
  upsertMatchTeam (upsertMatchTeam st matchId homeTeam true)
    matchId awayTeam false

/-- `DataImporter._get_or_create_person` (importer.py lines 534-594).
`none` embeds the `ValueError` raised on a missing/falsy `personid` (the
store is untouched in that case). -/
def getOrCreatePerson (st : Store) (d : PersonData) :
    Store × Option PersonRow :=
  if !truthyInt d.personid then (st, none)
  else
    let pid := d.personid.getD 0
    let existing := st.persons.find? (fun p => p.id = pid)
    let fullName :=
      if d.personnamn.getD "" ≠ "" then d.personnamn.getD ""
      else d.namn.getD ""
    let firstName := d.fornamn.getD ""
    let lastName := d.efternamn.getD ""
    let (firstName, lastName) :=
      if firstName = "" && lastName = "" && fullName ≠ "" then
        let nameParts := pySplitSp fullName
        if nameParts.length > 1 then
          (nameParts.headD "", pyJoinSp nameParts.tail)
        else (fullName, "")
      else (firstName, lastName)
    let upd : PersonRow → PersonRow := fun p =>
      { p with firstName := firstName, lastName := lastName,
               personalNumber := d.personnr, email := d.epostadress,
               phone := d.mobiltelefon, address := d.adress,
               postalCode := d.postnr, city := d.postort,
               country := d.land.getD "Sweden" }
    match existing with
    | some p =>
        ({ st with persons := updateFirst (fun x => x.id = pid) upd st.persons },
         some (upd p))
    | none =>
        let p : PersonRow :=
          { id := pid, firstName := firstName, lastName := lastName,
            personalNumber := d.personnr, email := d.epostadress,
            phone := d.mobiltelefon, address := d.adress,
            postalCode := d.postnr, city := d.postort,
            country := d.land.getD "Sweden" }
        ({ st with persons := st.persons ++ [p] }, some p)

/-- `DataImporter._get_or_create_referee` (importer.py lines 596-618). -/
def getOrCreateReferee (st : Store) (refereeId : Int) (person : PersonRow) :
    Store × RefereeRow :=
  match st.referees.find? (fun x => x.id = refereeId) with
  | some ref =>
      let ref' := { ref with personId := person.id }
      let newRefs :=
        updateFirst (fun x => x.id = refereeId)
          (fun x => { x with personId := person.id }) st.referees
      ({ st with referees := newRefs }, ref')
  | none =>
      let ref : RefereeRow := { id := refereeId, personId := person.id }
      ({ st with referees := st.referees ++ [ref] }, ref)

/-- The body of the per-entry loop of `_process_referee_assignments`
(importer.py lines 465-530); any entry whose person lookup raises, or whose
required ids are missing, leaves the store as it stands. -/
def processRefereeAssignment (matchId : Int) (st : Store)
    (e : RefAssignmentRecord) : Store :=
  if !(truthyInt e.domareid && truthyInt e.person.personid
        && truthyInt e.domarrollid) then st
  else
    match getOrCreatePerson st e.person with
    | (st1, none) => st1
    | (st1, some person) =>
        let (st2, referee) := getOrCreateReferee st1 (e.domareid.getD 0) person
        let roleId := e.domarrollid.getD 0
        let (st3, role) :=
          match st2.refereeRoles.find? (fun x => x.id = roleId) with
          | some role => (st2, role)
          | none =>
              let role : RefereeRoleRow :=
                { id := roleId, name := e.domarrollnamn.getD "Unknown",
                  shortName := e.domarrollkortnamn.getD "" }
              ({ st2 with refereeRoles := st2.refereeRoles ++ [role] }, role)
        let p : RefereeAssignmentRow → Bool := fun a =>
          a.matchId = matchId && a.refereeId = referee.id && a.roleId = role.id
        let aid := e.domaruppdragid
        match st3.refereeAssignments.find? p with
        | some _ =>
            let upd : RefereeAssignmentRow → RefereeAssignmentRow := fun a =>
              let a := { a with status := e.domaruppdragstatusnamn.getD "" }
              if truthyInt aid then
                { a with fogisId := some (pyStr (aid.getD 0)) }
              else a
            { st3 with refereeAssignments :=
                updateFirst p upd st3.refereeAssignments }
        | none =>
            let (newId, st4) := st3.genId
            { st4 with refereeAssignments := st4.refereeAssignments ++
                [{ id := newId, matchId := matchId, refereeId := referee.id,
                   roleId := role.id,
                   status := e.domaruppdragstatusnamn.getD "",
                   fogisId := if truthyInt aid then
                       some (pyStr (aid.getD 0)) else none }] }

/-- `DataImporter._process_referee_assignments`: fold the per-entry body
over the assignment list. -/
def processRefereeAssignments (st : Store) (matchId : Int)
    (entries : List RefAssignmentRecord) : Store :=
  entries.foldl (processRefereeAssignment matchId) st

end Resolvers

section Importers

/-- Outcome of the `try` body run for one record: `skip` is a `continue`
taken before the success counter (a missing field or an unresolved mandatory
reference), `ok` a completed record, and `exc` an exception caught by the
per-record handler — the state it carries is the session state at the point
the exception was raised (the session is not rolled back per record). -/
inductive RecOutcome (σ : Type) where
  | skip (st : σ)
  | ok (st : σ)
  | exc (st : σ)

/-- The shared shape of the four per-record import loops
(`for record in data: try: ... except: continue`), counting only `ok`
records and never propagating a per-record outcome as an exception. -/
def runRecords (body : σ → ρ → RecOutcome σ) (st : σ) :
    List ρ → Nat × σ
  | [] => (0, st)
  | r :: rs =>
      match body st r with
      | .skip st' => runRecords body st' rs
      | .ok st' =>
          let (n, st'') := runRecords body st' rs
          (n + 1, st'')
      | .exc st' => runRecords body st' rs

/-- Lines 230-240 of `_import_matches`: upsert the two MatchTeam rows and
process the embedded referee-assignment list when present and non-empty. -/
def matchTail (st5 : Store) (matchId : Int)
    (homeTeam awayTeam : Option TeamRow)
    (dl : Option (List RefAssignmentRecord)) : Store :=
  let st6 := createOrUpdateMatchTeams st5 matchId homeTeam awayTeam
  match dl with
  | some entries =>
      if entries ≠ [] then processRefereeAssignments st6 matchId entries
      else st6
  | none => st6

/-- The match-record upsert proper: lines 177-241 of `_import_matches`
(everything after the `matchid` check, for one record). -/
def processMatch (now : String) (st : Store) (r : MatchRecord) : Store :=
  let key := pyStr (r.matchid.getD 0)
  let existing := st.matchRows.find? (fun m => m.fogisId = some key)
  let (st1, venue) := getOrCreateVenue st r
  let (st2, competition) := getOrCreateCompetition st1 r
  let (st3, homeTeam) := getOrCreateTeam st2 r true
  let (st4, awayTeam) := getOrCreateTeam st3 r false
  let matchDate := parseDate now (r.speldatum.getD "")
  let matchTime := r.avsparkstid.getD ""
  let upd : MatchRow → MatchRow := fun m =>
    { m with matchNr := r.matchnr.getD "", date := matchDate,
             time := matchTime, venueId := venue.map (·.id),
             competitionId := competition.map (·.id),
             footballTypeId := r.fotbollstypid.getD 1,
             spectators := r.antalaskadare, status := "normal",
             isWalkover := r.wo.getD false }
  let (st5, matchId) :=
    match existing with
    | some m =>
        let newMatches :=
          updateFirst (fun x => x.fogisId = some key) upd st4.matchRows
        ({ st4 with matchRows := newMatches }, m.id)
    | none =>
        let (newId, st4') := st4.genId
        let m : MatchRow :=
          { id := newId, matchNr := r.matchnr.getD "", date := matchDate,
            time := matchTime, venueId := venue.map (·.id),
            competitionId := competition.map (·.id),
            footballTypeId := r.fotbollstypid.getD 1,
            spectators := r.antalaskadare, status := "normal",
            isWalkover := r.wo.getD false, fogisId := some key }
        ({ st4' with matchRows := st4'.matchRows ++ [m] }, newId)
  matchTail st5 matchId homeTeam awayTeam r.domaruppdraglista

/-- The `try` body of the `_import_matches` loop. -/
def matchBody (now : String) (st : Store) (r : MatchRecord) :
    RecOutcome Store :=
  if !truthyInt r.matchid then .skip st
  else .ok (processMatch now st r)

/-- `DataImporter._import_matches` (importer.py lines 157-249). -/
def importMatches (now : String) (st : Store) (data : List MatchRecord) :
    Nat × Store :=
  runRecords (matchBody now) st data

/-- `DataImporter._get_or_create_result_type` (importer.py lines 673-697):
an existing result type is returned untouched. -/
def getOrCreateResultType (st : Store) (resultTypeId : Int)
    (r : ResultRecord) : Store × ResultTypeRow :=
  match st.resultTypes.find? (fun x => x.id = resultTypeId) with
  | some rt => (st, rt)
  | none =>
      let rt : ResultTypeRow :=
        { id := resultTypeId, name := r.matchresultattypnamn.getD "Unknown" }
      ({ st with resultTypes := st.resultTypes ++ [rt] }, rt)

/-- `DataImporter._find_existing_result` (importer.py lines 699-732): by the
external result id when truthy, falling back to the (match, result type)
composite. -/
def findExistingResult (st : Store) (resultId : Option Int)
    (matchId resultTypeId : Int) : Option MatchResultRow :=
  let byId :=
    if truthyInt resultId then
      st.matchResults.find? (fun x => x.id = resultId.getD 0)
    else none
  match byId with
  | some x => some x
  | none =>
      st.matchResults.find?
        (fun x => x.matchId = matchId && x.resultTypeId = resultTypeId)

/-- The `try` body of the `_import_match_results` loop
(importer.py lines 746-799); the mutation of the found row is written
through the key `_find_existing_result` located it by. -/
def resultBody (st : Store) (r : ResultRecord) : RecOutcome Store :=
  if !(truthyInt r.matchid && truthyInt r.matchresultattypid) then .skip st
  else
    let key := pyStr (r.matchid.getD 0)
    match st.matchRows.find? (fun m => m.fogisId = some key) with
    | none => .skip st
    | some m =>
        let (st1, resultType) :=
          getOrCreateResultType st (r.matchresultattypid.getD 0) r
        let rid := r.matchresultatid
        let homeGoals := r.matchlag1mal.getD 0
        let awayGoals := r.matchlag2mal.getD 0
        let upd : MatchResultRow → MatchResultRow := fun x =>
          let x := { x with homeGoals := homeGoals, awayGoals := awayGoals }
          if truthyInt rid then { x with fogisId := some (pyStr (rid.getD 0)) }
          else x
        let byId :=
          if truthyInt rid then
            st1.matchResults.find? (fun x => x.id = rid.getD 0)
          else none
        match byId with
        | some _ =>
            let newResults :=
              updateFirst (fun x => x.id = rid.getD 0) upd st1.matchResults
            .ok { st1 with matchResults := newResults }
        | none =>
            let pPair : MatchResultRow → Bool := fun x =>
              x.matchId = m.id && x.resultTypeId = resultType.id
            match st1.matchResults.find? pPair with
            | some _ =>
                let newResults := updateFirst pPair upd st1.matchResults
                .ok { st1 with matchResults := newResults }
            | none =>
                let (newId, st2) :=
                  if truthyInt rid then (rid.getD 0, st1) else st1.genId
                let row : MatchResultRow :=
                  { id := newId, matchId := m.id,
                    resultTypeId := resultType.id, homeGoals := homeGoals,
                    awayGoals := awayGoals,
                    fogisId := if truthyInt rid then
                        some (pyStr (rid.getD 0)) else none }
                .ok { st2 with matchResults := st2.matchResults ++ [row] }

/-- `DataImporter._import_match_results` (importer.py lines 734-806). -/
def importMatchResults (st : Store) (data : List ResultRecord) : Nat × Store :=
  runRecords resultBody st data

/-- The two keys `_get_or_create_event_type` reads from the dictionary it is
given. Its only caller inside the event pipeline, `_check_event_entities`,
passes the empty dictionary `{}`. -/
structure EventTypeData where
  matchhandelsetypnamn : Option String := none
  matchhandelsetypmedforstallningsandring : Option Bool := none
  deriving DecidableEq, Repr

/-- The empty dictionary passed by `_check_event_entities`. -/
def emptyEventTypeData : EventTypeData := {}

/-- `DataImporter._get_or_create_event_type` (importer.py lines 835-876):
on creation only, the boolean flags are derived from a case-insensitive
substring match of the display name (the goal term is the `"mÃ¥l"` mojibake
literally present in the source); an existing event type is returned
untouched. -/
def getOrCreateEventType (st : Store) (eventTypeId : Int)
    (d : EventTypeData) : Store × EventTypeRow :=
  match st.eventTypes.find? (fun x => x.id = eventTypeId) with
  | some et => (st, et)
  | none =>
      let eventTypeName := d.matchhandelsetypnamn.getD "Unknown"
      let affectsScore := d.matchhandelsetypmedforstallningsandring.getD false
      let nameLower := pyLower eventTypeName
      let isGoal := containsSub "mÃ¥l".data nameLower.data
        || containsSub "goal".data nameLower.data
      let isPenalty := containsSub "straff".data nameLower.data
        || containsSub "penalty".data nameLower.data
      let isCard := containsSub "kort".data nameLower.data
        || containsSub "card".data nameLower.data
      let isSubstitution := containsSub "byte".data nameLower.data
        || containsSub "substitution".data nameLower.data
      let et : EventTypeRow :=
        { id := eventTypeId, name := eventTypeName, isGoal := isGoal,
          isPenalty := isPenalty, isCard := isCard,
          isSubstitution := isSubstitution, affectsScore := affectsScore }
      ({ st with eventTypes := st.eventTypes ++ [et] }, et)

/-- `DataImporter._check_event_entities` (importer.py lines 878-922):
require the match (by external id), the participant and the match team to
exist, then get-or-create the event type from the empty dictionary. -/
def checkEventEntities (st : Store)
    (matchId participantId matchTeamId eventTypeId : Int) :
    Store × Option MatchRow :=
  match st.matchRows.find? (fun m => m.fogisId = some (pyStr matchId)) with
  | none => (st, none)
  | some m =>
      match st.matchParticipants.find? (fun x => x.id = participantId) with
      | none => (st, none)
      | some _ =>
          match st.matchTeams.find? (fun x => x.id = matchTeamId) with
          | none => (st, none)
          | some _ =>
              let (st1, _) :=
                getOrCreateEventType st eventTypeId emptyEventTypeData
              (st1, some m)

/-- The mutable payload of a match event, as extracted by
`_extract_event_details`. -/
structure EventDetails where
  minute : Option Int
  period : Option Int
  comment : String
  homeScore : Int
  awayScore : Int
  positionX : Int
  positionY : Int
  relatedEventId : Option Int
  deriving DecidableEq, Repr

/-- `DataImporter._extract_event_details` (importer.py lines 924-954):
defaults, and normalization of the `related event id` 0-sentinel to null. -/
def extractEventDetails (r : EventRecord) : EventDetails :=
  let relatedEventId :=
    match r.relateradTillMatchhandelseID with
    | some 0 => none
    | v => v
  { minute := r.matchminut, period := r.period,
    comment := r.kommentar.getD "", homeScore := r.hemmamal.getD 0,
    awayScore := r.bortamal.getD 0, positionX := r.planpositionx.getD (-1),
    positionY := r.planpositiony.getD (-1), relatedEventId := relatedEventId }

/-- `DataImporter._create_or_update_event` (importer.py lines 956-1017):
locate by the external event id when truthy, overwrite all mutable fields on
update, otherwise create passing the external event id through as the
primary key whenever the field is present — including the 0 sentinel — and
auto-generating it only when the field is absent. -/
def createOrUpdateEvent (st : Store) (r : EventRecord) (m : MatchRow)
    (participantId eventTypeId matchTeamId : Int) (d : EventDetails) :
    Store :=
  let eid := r.matchhandelseid
  let existing :=
    if truthyInt eid then st.matchEvents.find? (fun x => x.id = eid.getD 0)
    else none
  match existing with
  | some _ =>
      let upd : MatchEventRow → MatchEventRow := fun x =>
        let x := { x with matchId := m.id, participantId := participantId,
                          eventTypeId := eventTypeId,
                          matchTeamId := matchTeamId, minute := d.minute,
                          period := d.period, comment := d.comment,
                          homeScore := d.homeScore, awayScore := d.awayScore,
                          positionX := d.positionX, positionY := d.positionY,
                          relatedEventId := d.relatedEventId }
        if truthyInt eid then { x with fogisId := some (pyStr (eid.getD 0)) }
        else x
      let newEvents :=
        updateFirst (fun x => x.id = eid.getD 0) upd st.matchEvents
      { st with matchEvents := newEvents }
  | none =>
      let (newId, st1) :=
        match eid with
        | some v => (v, st)
        | none => st.genId
      let row : MatchEventRow :=
        { id := newId, matchId := m.id, participantId := participantId,
          eventTypeId := eventTypeId, matchTeamId := matchTeamId,
          minute := d.minute, period := d.period, comment := d.comment,
          homeScore := d.homeScore, awayScore := d.awayScore,
          positionX := d.positionX, positionY := d.positionY,
          relatedEventId := d.relatedEventId,
          fogisId := if truthyInt eid then
              some (pyStr (eid.getD 0)) else none }
      { st1 with matchEvents := st1.matchEvents ++ [row] }

/-- The `try` body of the `_import_match_events` loop
(importer.py lines 1031-1061). -/
def eventBody (st : Store) (r : EventRecord) : RecOutcome Store :=
  if !(truthyInt r.matchid && truthyInt r.matchhandelsetypid
        && truthyInt r.matchdeltagareid && truthyInt r.matchlagid) then
    .skip st
  else
    match checkEventEntities st (r.matchid.getD 0) (r.matchdeltagareid.getD 0)
        (r.matchlagid.getD 0) (r.matchhandelsetypid.getD 0) with
    | (st1, none) => .skip st1
    | (st1, some m) =>
        let d := extractEventDetails r
        .ok (createOrUpdateEvent st1 r m (r.matchdeltagareid.getD 0)
          (r.matchhandelsetypid.getD 0) (r.matchlagid.getD 0) d)

/-- `DataImporter._import_match_events` (importer.py lines 1019-1068). -/
def importMatchEvents (st : Store) (data : List EventRecord) : Nat × Store :=
  runRecords eventBody st data

/-- The `try` body of the `_import_match_participants` loop
(importer.py lines 1082-1194); the `ValueError` a falsy `personid` raises
inside `_get_or_create_person` is caught by the per-record handler. -/
def participantBody (st : Store) (r : ParticipantRecord) : RecOutcome Store :=
  if !(truthyInt r.matchid && truthyInt r.matchlagid
        && truthyInt r.spelareid && truthyInt r.matchdeltagareid) then
    .skip st
  else
    let key := pyStr (r.matchid.getD 0)
    match st.matchRows.find? (fun m => m.fogisId = some key) with
    | none => .skip st
    | some m =>
        match st.matchTeams.find? (fun x => x.id = r.matchlagid.getD 0) with
        | none => .skip st
        | some _ =>
            match getOrCreatePerson st r.person with
            | (st1, none) => .exc st1
            | (st1, some person) =>
                let participantId := r.matchdeltagareid.getD 0
                let existing :=
                  st1.matchParticipants.find? (fun x => x.id = participantId)
                let substitutionIn :=
                  let v := r.byte1.getD 0
                  if v = 0 then none else some v
                let substitutionOut :=
                  let v := r.byte2.getD 0
                  if v = 0 then none else some v
                let upd : MatchParticipantRow → MatchParticipantRow := fun x =>
                  { x with matchId := m.id,
                           matchTeamId := r.matchlagid.getD 0,
                           playerId := person.id,
                           jerseyNumber := r.trojnummer,
                           isCaptain := r.lagkapten.getD false,
                           isSubstitute := r.ersattare.getD false,
                           substitutionInMinute := substitutionIn,
                           substitutionOutMinute := substitutionOut,
                           isPlayingLeader := r.arSpelandeLedare.getD false,
                           isResponsible := r.ansvarig.getD false,
                           accumulatedWarnings :=
                             r.spelareAntalAckumuleradeVarningar.getD 0,
                           suspensionDescription :=
                             r.spelareAvstangningBeskrivning.getD "" }
                match existing with
                | some _ =>
                    let newParts :=
                      updateFirst (fun x => x.id = participantId) upd
                        st1.matchParticipants
                    .ok { st1 with matchParticipants := newParts }
                | none =>
                    let row : MatchParticipantRow :=
                      { id := participantId, matchId := m.id,
                        matchTeamId := r.matchlagid.getD 0,
                        playerId := person.id, jerseyNumber := r.trojnummer,
                        isCaptain := r.lagkapten.getD false,
                        isSubstitute := r.ersattare.getD false,
                        substitutionInMinute := substitutionIn,
                        substitutionOutMinute := substitutionOut,
                        isPlayingLeader := r.arSpelandeLedare.getD false,
                        isResponsible := r.ansvarig.getD false,
                        accumulatedWarnings :=
                          r.spelareAntalAckumuleradeVarningar.getD 0,
                        suspensionDescription :=
                          r.spelareAvstangningBeskrivning.getD "" }
                    .ok { st1 with matchParticipants :=
                            st1.matchParticipants ++ [row] }

/-- `DataImporter._import_match_participants`
(importer.py lines 1070-1196). -/
def importMatchParticipants (st : Store) (data : List ParticipantRecord) :
    Nat × Store :=
  runRecords participantBody st data

end Importers

section ImportSession

/-- A transaction-scope action taken by `import_from_json`. -/
inductive TxOp where
  | commit
  | rollback
  deriving DecidableEq, Repr

/-- A session: the durable (committed) store and the working state the
pending transaction sees. -/
structure TxSession (σ : Type) where
  committed : σ
  working : σ

/-- `session.commit()`: make the working state durable. -/
def TxSession.commit (s : TxSession σ) : TxSession σ :=
  { s with committed := s.working }

/-- `session.rollback()`: discard the pending changes. -/
def TxSession.rollback (s : TxSession σ) : TxSession σ :=
  { s with working := s.committed }

/-- `DataImporter.import_from_json` (importer.py lines 125-155), abstracted
over the classify-and-dispatch step `process` (which may raise): on success
commit once and return the count, on an escaping exception roll back and
re-raise. The trace records the transaction-scope actions taken. -/
def importFromJson (process : σ → Except ε (Nat × σ)) (s : TxSession σ) :
    Except ε Nat × TxSession σ × List TxOp :=
  match process s.working with
  | .ok (n, w') => (.ok n, TxSession.commit { s with working := w' }, [.commit])
  | .error e => (.error e, TxSession.rollback s, [.rollback])

end ImportSession

section HelperLemmas

theorem any_eq_isSome_find? (p : α → Bool) (l : List α) :
    l.any p = (l.find? p).isSome := by
  induction l with
  | nil => rfl
  | cons x xs ih =>
      by_cases h : p x <;> simp [List.find?_cons, h, ih]

theorem find?_updateFirst_self (p : α → Bool) (f : α → α)
    (hf : ∀ a, p (f a) = p a) (l : List α) :
    (updateFirst p f l).find? p = (l.find? p).map f := by
  induction l with
  | nil => rfl
  | cons x xs ih =>
      by_cases h : p x
      · simp [updateFirst_cons, h, List.find?_cons, hf]
      · simp [updateFirst_cons, h, List.find?_cons, ih]

theorem map_updateFirst (g : α → κ) (p : α → Bool) (f : α → α)
    (hf : ∀ a, g (f a) = g a) (l : List α) :
    (updateFirst p f l).map g = l.map g := by
  induction l with
  | nil => rfl
  | cons x xs ih =>
      rw [updateFirst_cons]
      by_cases h : p x <;> simp [h, hf, ih]

theorem forall₂_updateFirst (R : α → α → Prop) (p : α → Bool) (f : α → α)
    (hrefl : ∀ a, R a a) (hf : ∀ a, R a (f a)) (l : List α) :
    List.Forall₂ R l (updateFirst p f l) := by
  induction l with
  | nil => exact List.Forall₂.nil
  | cons x xs ih =>
      rw [updateFirst_cons]
      by_cases h : p x
      · simp only [h, if_true]
        exact List.Forall₂.cons (hf x) (List.forall₂_same.2 fun a _ => hrefl a)
      · simp only [h, if_false]
        exact List.Forall₂.cons (hrefl x) ih

end HelperLemmas

section ClassifierSpec

/-- The embedded type marker of a first element / single mapping, as the
specification describes it (the empty string standing for a missing
marker). -/
def typeMarkerOf (fields : List (String × JValue)) : JValue :=
  match fields.find? (fun kv => kv.1 = "__type") with
  | some kv => kv.2
  | none => .jstr ""

/-- Modelled from the spec's words (section 4.1): the classifier's contract.
A non-empty list yields the first element's marker with the list unchanged,
a single mapping yields its own marker wrapped in a one-element list, and
any other shape yields the empty string and no records. -/
def classifierSpec : JValue → JValue × List JValue
  | .jarr (x :: xs) =>
      ((match x with
        | .jobj f => typeMarkerOf f
        | _ => .jstr ""), x :: xs)
  | .jobj f => (typeMarkerOf f, [.jobj f])
  | _ => (.jstr "", [])

/-- The decoded values on which the classifier completes: every shape
except a non-empty array whose first element makes the marker test itself
fail — a number, boolean or null first element (the membership test on a
non-container raises), or a string or array first element on which the
marker membership test succeeds (indexing it by the marker key then
raises). A string or array first element NOT containing the marker passes
the membership test with False and is treated as a missing marker. -/
def classifierOk : JValue → Prop
  | .jarr (.jobj _ :: _) => True
  | .jarr (.jstr s :: _) => containsSub "__type".data s.data = false
  | .jarr (.jarr ys :: _) => ys.any (fun v => v.eqStr "__type") = false
  | .jarr (_ :: _) => False
  | _ => True

end ClassifierSpec

section ClaimC5

/-- C5: if an exception escapes the per-record isolation boundaries of
`import_from_json`, the file's transaction is rolled back — the committed
store is unchanged — and the exception is re-raised; on success the
transaction is committed exactly once and the count returned. -/
theorem c5_transaction_boundary {σ ε : Type} (process : σ → Except ε (Nat × σ))
    (s : TxSession σ) :
    (∀ e, process s.working = .error e →
        (importFromJson process s).1 = .error e
        ∧ ((importFromJson process s).2.1).committed = s.committed
        ∧ (importFromJson process s).2.2 = [TxOp.rollback])
    ∧ (∀ n w, process s.working = .ok (n, w) →
        (importFromJson process s).1 = .ok n
        ∧ ((importFromJson process s).2.1).committed = w
        ∧ (importFromJson process s).2.2 = [TxOp.commit]) := by
  constructor
  · intro e he
    simp [importFromJson, he, TxSession.rollback]
  · intro n w hw
    simp [importFromJson, hw, TxSession.commit]

/-- Witness for C5 at a concrete failing and a concrete succeeding
processing step over a concrete session. -/
theorem c5_transaction_boundary_witness :
    ((importFromJson (fun _ : Nat => (.error 7 : Except Nat (Nat × Nat)))
        ⟨5, 5⟩).2.1.committed = 5)
    ∧ ((importFromJson (fun st : Nat => (.ok (3, st + 1) : Except Nat (Nat × Nat)))
        ⟨5, 5⟩).2.2 = [TxOp.commit]) :=
  ⟨((c5_transaction_boundary (fun _ => .error 7) ⟨5, 5⟩).1 7 rfl).2.1,
   ((c5_transaction_boundary (fun st => .ok (3, st + 1)) ⟨5, 5⟩).2 3 6 rfl).2.2⟩

end ClaimC5

section ClaimC6

/-- C6 counterexample: the claim says the Type Classifier returns a pair
without raising for every decoded JSON value, but the decoded value
`[1]` — a non-empty array whose first element is a number — makes
`"__type" in data[0]` raise a TypeError. -/
theorem c6_classifier_counterexample :
    determineDataType (.jarr [.jnum 1]) = .error .typeError := rfl

/-- C6 (amended): the Type Classifier returns a (record_type, records)
pair without raising on every decoded JSON value on which the marker test
itself does not raise: for a non-empty list it returns the first element's
embedded type marker and the list unchanged; for a single mapping its own
marker and the mapping wrapped in a one-element list; the empty string
together with the unchanged list when the marker is missing — including a
string or list first element not containing the marker; and the empty
string with an empty record list for any other shape. On the remaining
inputs — a non-empty array whose first element is a number, boolean or
null, or is a string or list on which the marker membership test
succeeds — a TypeError propagates instead. -/
theorem c6_classifier_spec :
    (∀ v : JValue, classifierOk v →
      determineDataType v = .ok (classifierSpec v))
    ∧ (∀ v : JValue, ¬ classifierOk v →
      determineDataType v = .error .typeError) := by
  constructor
  · intro v h
    match v with
    | .jnull | .jbool b | .jnum n | .jstr s => rfl
    | .jarr [] => rfl
    | .jarr (.jobj f :: xs) =>
        match hf : f.find? (fun kv => kv.1 = "__type") with
        | some kv =>
            simp [determineDataType, pyContains, pyIndex, any_eq_isSome_find?,
              hf, classifierSpec, typeMarkerOf]
        | none =>
            simp [determineDataType, pyContains, pyIndex, any_eq_isSome_find?,
              hf, classifierSpec, typeMarkerOf]
    | .jarr (.jstr s :: xs) =>
        have hs : containsSub "__type".data s.data = false := h
        simp [determineDataType, pyContains, hs, classifierSpec]
    | .jarr (.jarr ys :: xs) =>
        have hs : ys.any (fun v => v.eqStr "__type") = false := h
        simp [determineDataType, pyContains, hs, classifierSpec]
    | .jarr (.jnum n :: xs) => exact absurd h (fun hh => hh)
    | .jarr (.jbool b :: xs) => exact absurd h (fun hh => hh)
    | .jarr (.jnull :: xs) => exact absurd h (fun hh => hh)
    | .jobj f =>
        match hf : f.find? (fun kv => kv.1 = "__type") with
        | some kv =>
            simp [determineDataType, pyContains, pyIndex, any_eq_isSome_find?,
              hf, classifierSpec, typeMarkerOf]
        | none =>
            simp [determineDataType, pyContains, pyIndex, any_eq_isSome_find?,
              hf, classifierSpec, typeMarkerOf]
  · intro v h
    match v with
    | .jnull | .jbool b | .jnum n | .jstr s => exact absurd trivial h
    | .jobj f => exact absurd trivial h
    | .jarr [] => exact absurd trivial h
    | .jarr (.jobj f :: xs) => exact absurd trivial h
    | .jarr (.jstr s :: xs) =>
        have hs : containsSub "__type".data s.data = true := by
          cases hb : containsSub "__type".data s.data
          · exact absurd hb h
          · rfl
        simp [determineDataType, pyContains, pyIndex, hs]
    | .jarr (.jarr ys :: xs) =>
        have hs : ys.any (fun v => v.eqStr "__type") = true := by
          cases hb : ys.any (fun v => v.eqStr "__type")
          · exact absurd hb h
          · rfl
        simp [determineDataType, pyContains, pyIndex, hs]
    | .jarr (.jnum n :: xs) => rfl
    | .jarr (.jbool b :: xs) => rfl
    | .jarr (.jnull :: xs) => rfl

/-- Witness for C6 on concrete inputs of each kind: the four shapes the
specification lists, a string-headed array without the marker (no raise,
missing marker), and a number-headed and a marker-containing-string-headed
array (TypeError). -/
theorem c6_classifier_spec_witness :
    determineDataType (.jarr [.jobj [("__type", .jstr "T")], .jobj []])
      = .ok (.jstr "T", [.jobj [("__type", .jstr "T")], .jobj []])
    ∧ determineDataType (.jobj [("v", .jnum 1)])
      = .ok (.jstr "", [.jobj [("v", .jnum 1)]])
    ∧ determineDataType (.jarr []) = .ok (.jstr "", [])
    ∧ determineDataType (.jstr "not a dict or list") = .ok (.jstr "", [])
    ∧ determineDataType (.jarr [.jstr "foo"])
      = .ok (.jstr "", [.jstr "foo"])
    ∧ determineDataType (.jarr [.jnum 2]) = .error .typeError
    ∧ determineDataType (.jarr [.jstr "has __type inside"])
      = .error .typeError :=
  ⟨c6_classifier_spec.1 _ trivial, c6_classifier_spec.1 _ trivial,
   c6_classifier_spec.1 _ trivial, c6_classifier_spec.1 _ trivial,
   c6_classifier_spec.1 _ rfl,
   c6_classifier_spec.2 _ (fun h => h),
   c6_classifier_spec.2 _ (fun h => Bool.noConfusion h)⟩

end ClaimC6

section ClaimC9

/-- A 4-digit year token beginning with "20". -/
def isYearToken (cs : List Char) : Bool :=
  match cs with
  | [c0, c1, c2, c3] => c0 = '2' && c1 = '0' && c2.isDigit && c3.isDigit
  | _ => false

/-- Word-boundary condition against the character preceding a candidate
match (none at the start of the string). -/
def boundaryBefore (prev : Option Char) : Bool :=
  match prev with
  | none => true
  | some c => !isWordChar c

/-- Modelled from the spec's words (sections 4.2 and 8): a 4-digit 20xx
year token occurs at index `i` of the name — four characters `20dd`
delimited by word boundaries; `prev` is the character preceding the scanned
suffix. -/
def seasonTokenAtP (prev : Option Char) (l : List Char) (i : Nat) : Bool :=
  isYearToken ((l.drop i).take 4)
    && (match i with
        | 0 => boundaryBefore prev
        | j + 1 => !isWordChar (l.getD j ' '))
    && (decide (l.length ≤ i + 4) || !isWordChar (l.getD (i + 4) ' '))

/-- Modelled from the spec's words: the season is the first (leftmost)
4-digit 20xx token found in the competition name, or the empty string when
the name contains no such token. -/
def seasonSpec (s : String) : String :=
  match (List.range s.data.length).find? (seasonTokenAtP none s.data) with
  | some i => String.mk ((s.data.drop i).take 4)
  | none => ""

theorem seasonHere_eq (prev : Option Char) (l : List Char) :
    seasonHere prev l =
      if seasonTokenAtP prev l 0 then some (String.mk (l.take 4)) else none := by
  match l with
  | [] => rfl
  | [c0] => rfl
  | [c0, c1] => rfl
  | [c0, c1, c2] => rfl
  | c0 :: c1 :: c2 :: c3 :: rest =>
      cases rest with
      | nil =>
          simp only [seasonHere, seasonTokenAtP, isYearToken, boundaryBefore,
            List.drop_zero, List.take, List.length, List.getD]
          cases prev <;> simp +decide [Bool.and_assoc]
      | cons r rs =>
          simp only [seasonHere, seasonTokenAtP, isYearToken, boundaryBefore,
            List.drop_zero, List.take, List.length, List.getD, List.get?]
          cases prev <;>
            simp +decide [Bool.and_assoc,
              show ∀ n : Nat, ¬(1 + (1 + (1 + (1 + (n + 1)))) ≤ 4) from
                fun n => by omega]

theorem seasonTokenAtP_succ (prev : Option Char) (c : Char)
    (rest : List Char) (i : Nat) :
    seasonTokenAtP prev (c :: rest) (i + 1) = seasonTokenAtP (some c) rest i := by
  simp only [seasonTokenAtP, List.drop_succ_cons]
  congr 2
  · cases i with
    | zero => simp [boundaryBefore, List.getD]
    | succ j => simp [List.getD]
  · simp only [List.length_cons, List.getD_cons_succ]
    congr 1
    simp [Nat.add_le_add_iff_right, Nat.succ_le_succ_iff]

theorem findSeason_eq (l : List Char) : ∀ (prev : Option Char),
    findSeason prev l =
      ((List.range l.length).find? (seasonTokenAtP prev l)).map
        (fun i => String.mk ((l.drop i).take 4)) := by
  induction l with
  | nil => intro prev; rfl
  | cons c rest ih =>
      intro prev
      rw [show findSeason prev (c :: rest)
            = (match seasonHere prev (c :: rest) with
               | some s => some s
               | none => findSeason (some c) rest) from rfl]
      rw [seasonHere_eq]
      rw [List.length_cons, List.range_succ_eq_map]
      rw [List.find?_cons]
      by_cases h0 : seasonTokenAtP prev (c :: rest) 0
      · simp [h0]
      · simp only [h0, if_false, Bool.false_eq_true]
        rw [List.find?_map, ih (some c)]
        simp only [Function.comp_def, Nat.succ_eq_add_one, seasonTokenAtP_succ]
        cases (List.range rest.length).find? (seasonTokenAtP (some c) rest) with
        | none => rfl
        | some i => simp [List.drop_succ_cons]

/-- C9: the season extracted during Competition resolution equals the first
4-digit 20xx year token found in the competition's display name, and equals
the empty string — without any failure — when the name contains no such
token; in particular the spec's two examples. -/
theorem c9_extract_season :
    (∀ s : String, extractSeason s = seasonSpec s)
    ∧ extractSeason "Div 2 Västra Götaland, herr 2025" = "2025"
    ∧ extractSeason "Div 2 Västra Götaland, herr" = "" := by
  refine ⟨fun s => ?_, by decide, by decide⟩
  rw [extractSeason, seasonSpec, findSeason_eq]
  cases (List.range s.data.length).find? (seasonTokenAtP none s.data) with
  | none => rfl
  | some i => rfl

end ClaimC9

section ClaimC10

/-- Modelled from the claim's words: the part of a name before its first
space. -/
def nameBeforeFirstSpace (s : String) : String :=
  String.mk (s.data.takeWhile (fun c => c ≠ ' '))

theorem splitChAux_head (sep : Char) (l : List Char) : ∀ acc : List Char,
    ∃ t, splitChAux sep acc l
      = (acc.reverse ++ l.takeWhile (fun c => c ≠ sep)) :: t := by
  induction l with
  | nil => intro acc; exact ⟨[], by simp [splitChAux]⟩
  | cons c rest ih =>
      intro acc
      by_cases h : c = sep
      · refine ⟨splitChAux sep [] rest, ?_⟩
        simp [splitChAux, h, List.takeWhile_cons]
      · obtain ⟨t, ht⟩ := ih (c :: acc)
        refine ⟨t, ?_⟩
        simp [splitChAux, h, ht, List.takeWhile_cons]

theorem pySplitSp_head (s : String) :
    (pySplitSp s).headD "" = nameBeforeFirstSpace s := by
  obtain ⟨t, ht⟩ := splitChAux_head ' ' s.data []
  simp [pySplitSp, ht, nameBeforeFirstSpace]

theorem clubNameOf_eq (s : String) :
    clubNameOf s
      = if s.data.contains ' ' then nameBeforeFirstSpace s else s := by
  rw [clubNameOf, pySplitSp_head]

/-- C10: whenever team resolution creates a new Club row, the new club's
stored name is the part of the team's name before its first space when the
name contains a space, and the whole team name otherwise (no club-name
field of the source record exists to be consulted); when a Club with the
record's external club id already exists, team resolution leaves the clubs
table — in particular that club's name — unchanged. -/
theorem c10_club_name (st : Store) (r : MatchRecord) (isHome : Bool)
    (h1 : truthyInt (if isHome then r.lag1lagid else r.lag2lagid) = true)
    (h2 : truthyStr (if isHome then r.lag1namn else r.lag2namn) = true)
    (h3 : truthyInt (if isHome then r.lag1foreningid else r.lag2foreningid)
            = true) :
    (st.clubs.find? (fun c =>
        c.id = (if isHome then r.lag1foreningid
                else r.lag2foreningid).getD 0) = none →
      (getOrCreateTeam st r isHome).1.clubs = st.clubs
        ++ [{ id := (if isHome then r.lag1foreningid
                     else r.lag2foreningid).getD 0,
              name :=
                if ((if isHome then r.lag1namn
                     else r.lag2namn).getD "").data.contains ' ' then
                  nameBeforeFirstSpace
                    ((if isHome then r.lag1namn else r.lag2namn).getD "")
                else (if isHome then r.lag1namn else r.lag2namn).getD "" }])
    ∧ (∀ c, st.clubs.find? (fun c =>
          c.id = (if isHome then r.lag1foreningid
                  else r.lag2foreningid).getD 0) = some c →
        (getOrCreateTeam st r isHome).1.clubs = st.clubs) := by
  constructor
  · intro hnone
    rw [getOrCreateTeam]
    simp only [h1, h2, h3, Bool.and_self, Bool.not_true, Bool.false_eq_true,
      if_false, hnone, clubNameOf_eq]
    cases (st.teams.find? (fun t =>
        t.id = (if isHome then r.lag1lagid else r.lag2lagid).getD 0)) <;> rfl
  · intro c hsome
    rw [getOrCreateTeam]
    simp only [h1, h2, h3, Bool.and_self, Bool.not_true, Bool.false_eq_true,
      if_false, hsome]
    cases (st.teams.find? (fun t =>
        t.id = (if isHome then r.lag1lagid else r.lag2lagid).getD 0)) <;> rfl

/-- Witness for C10: creating the away team "IF Böljan Falkenberg" in an
empty store creates its club with name "IF". -/
theorem c10_club_name_witness :
    (getOrCreateTeam emptyStore
        { lag2lagid := some 30415, lag2namn := some "IF Böljan Falkenberg",
          lag2foreningid := some 9528 } false).1.clubs
      = [{ id := 9528, name := "IF" }] :=
  (c10_club_name emptyStore
      { lag2lagid := some 30415, lag2namn := some "IF Böljan Falkenberg",
        lag2foreningid := some 9528 } false rfl rfl rfl).1 rfl

end ClaimC10

section MoreHelpers

theorem find?_append_none (p : α → Bool) (l₁ l₂ : List α)
    (h : l₁.find? p = none) : (l₁ ++ l₂).find? p = l₂.find? p := by
  induction l₁ with
  | nil => rfl
  | cons x xs ih =>
      cases hx : p x
      · simp only [List.cons_append, List.find?_cons, hx] at h ⊢
        exact ih h
      · exact absurd h (by simp [List.find?_cons, hx])

theorem find?_updateFirst_found (p : α → Bool) (f : α → α) (l : List α)
    (x : α) (hx : l.find? p = some x) (hf : p (f x) = p x) :
    (updateFirst p f l).find? p = some (f x) := by
  induction l with
  | nil => simp [List.find?] at hx
  | cons a l ih =>
      cases ha : p a
      · simp only [List.find?_cons, ha] at hx
        simp only [updateFirst_cons, ha, Bool.false_eq_true, if_false,
          List.find?_cons]
        exact ih hx
      · simp only [List.find?_cons, ha] at hx
        cases hx
        simp only [updateFirst_cons, ha, if_true, List.find?_cons, hf]

theorem runRecords_nil (body : σ → ρ → RecOutcome σ) (st : σ) :
    runRecords body st [] = (0, st) := by
  rw [runRecords]

theorem runRecords_cons_skip (body : σ → ρ → RecOutcome σ) (st st' : σ)
    (r : ρ) (rs : List ρ) (h : body st r = .skip st') :
    runRecords body st (r :: rs) = runRecords body st' rs := by
  rw [runRecords, h]

theorem runRecords_cons_exc (body : σ → ρ → RecOutcome σ) (st st' : σ)
    (r : ρ) (rs : List ρ) (h : body st r = .exc st') :
    runRecords body st (r :: rs) = runRecords body st' rs := by
  rw [runRecords, h]

theorem runRecords_cons_ok (body : σ → ρ → RecOutcome σ) (st st' : σ)
    (r : ρ) (rs : List ρ) (h : body st r = .ok st') :
    runRecords body st (r :: rs)
      = ((runRecords body st' rs).1 + 1, (runRecords body st' rs).2) := by
  rw [runRecords, h]

theorem getOrCreatePerson_some_shape (st : Store) (d : PersonData)
    (h : truthyInt d.personid = true) :
    ∃ ps p, getOrCreatePerson st d = ({ st with persons := ps }, some p) := by
  rw [getOrCreatePerson]
  simp only [h, Bool.not_true, Bool.false_eq_true, if_false]
  cases st.persons.find? (fun x => x.id = d.personid.getD 0) with
  | some x => exact ⟨_, _, rfl⟩
  | none => exact ⟨_, _, rfl⟩

theorem checkEventEntities_found_shape (st : Store)
    (matchId participantId matchTeamId eventTypeId : Int) (m : MatchRow)
    (hm : st.matchRows.find? (fun x => x.fogisId = some (pyStr matchId))
            = some m)
    (hp : (st.matchParticipants.find? (fun x => x.id = participantId)).isSome
            = true)
    (ht : (st.matchTeams.find? (fun x => x.id = matchTeamId)).isSome = true) :
    ∃ ets, checkEventEntities st matchId participantId matchTeamId eventTypeId
      = ({ st with eventTypes := ets }, some m) := by
  rw [checkEventEntities, hm]
  obtain ⟨x, hx⟩ := Option.isSome_iff_exists.1 hp
  obtain ⟨y, hy⟩ := Option.isSome_iff_exists.1 ht
  rw [hx, hy, getOrCreateEventType]
  cases st.eventTypes.find? (fun x => x.id = eventTypeId) with
  | some et => exact ⟨st.eventTypes, rfl⟩
  | none => exact ⟨_, rfl⟩

end MoreHelpers

section ClaimC7

/-- C7: for every imported MatchParticipant record, a substitution-in or
substitution-out value equal to 0 is stored as null while any nonzero value
is stored verbatim; and for every imported MatchEvent record, a
related-event id equal to 0 is stored as null while a nonzero value is
stored verbatim. -/
theorem c7_sentinel_normalization :
    (∀ (st : Store) (r : ParticipantRecord) (m : MatchRow) (mt : MatchTeamRow),
      truthyInt r.matchid = true → truthyInt r.matchlagid = true →
      truthyInt r.spelareid = true → truthyInt r.matchdeltagareid = true →
      st.matchRows.find?
          (fun x => x.fogisId = some (pyStr (r.matchid.getD 0))) = some m →
      st.matchTeams.find? (fun x => x.id = r.matchlagid.getD 0) = some mt →
      truthyInt r.person.personid = true →
      ∃ row, (importMatchParticipants st [r]).2.matchParticipants.find?
            (fun x => x.id = r.matchdeltagareid.getD 0) = some row
        ∧ row.substitutionInMinute
            = (if r.byte1.getD 0 = 0 then none else some (r.byte1.getD 0))
        ∧ row.substitutionOutMinute
            = (if r.byte2.getD 0 = 0 then none else some (r.byte2.getD 0)))
    ∧ (∀ (st : Store) (r : EventRecord) (m : MatchRow),
      truthyInt r.matchid = true → truthyInt r.matchhandelsetypid = true →
      truthyInt r.matchdeltagareid = true → truthyInt r.matchlagid = true →
      truthyInt r.matchhandelseid = true →
      st.matchRows.find?
          (fun x => x.fogisId = some (pyStr (r.matchid.getD 0))) = some m →
      (st.matchParticipants.find?
          (fun x => x.id = r.matchdeltagareid.getD 0)).isSome = true →
      (st.matchTeams.find? (fun x => x.id = r.matchlagid.getD 0)).isSome
          = true →
      ∃ row, (importMatchEvents st [r]).2.matchEvents.find?
            (fun x => x.id = r.matchhandelseid.getD 0) = some row
        ∧ row.relatedEventId
            = (if r.relateradTillMatchhandelseID.getD 0 = 0 then none
               else r.relateradTillMatchhandelseID)) := by
  constructor
  · intro st r m mt h1 h2 h3 h4 hm hmt hp
    obtain ⟨ps, p, hpp⟩ := getOrCreatePerson_some_shape st r.person hp
    rw [importMatchParticipants, runRecords]
    rw [participantBody]
    simp +decide only [h1, h2, h3, h4, hm, hmt, hpp, runRecords_nil, if_false]
    cases hex : st.matchParticipants.find?
        (fun x => x.id = r.matchdeltagareid.getD 0) with
    | none =>
        simp only [hex]
        rw [find?_append_none _ _ _ hex]
        rw [List.find?_cons_of_pos _ (by simp)]
        exact ⟨_, rfl, rfl, rfl⟩
    | some x =>
        simp only [hex]
        refine ⟨_, find?_updateFirst_found _ _ _ x hex ?_, rfl, rfl⟩
        rfl
  · intro st r m h1 h2 h3 h4 h5 hm hp ht
    obtain ⟨ets, hce⟩ := checkEventEntities_found_shape st
      (r.matchid.getD 0) (r.matchdeltagareid.getD 0) (r.matchlagid.getD 0)
      (r.matchhandelsetypid.getD 0) m hm hp ht
    rw [importMatchEvents, runRecords]
    rw [eventBody]
    simp +decide only [h1, h2, h3, h4, hce, runRecords_nil, if_false]
    rw [createOrUpdateEvent]
    have hrel : (extractEventDetails r).relatedEventId
        = (if r.relateradTillMatchhandelseID.getD 0 = 0 then none
           else r.relateradTillMatchhandelseID) := by
      rw [extractEventDetails]
      cases hv : r.relateradTillMatchhandelseID with
      | none => simp
      | some v =>
          by_cases h0 : v = 0
          · subst h0; simp
          · simp [h0]
    cases heid : r.matchhandelseid with
    | none => rw [heid] at h5; exact absurd h5 (by decide)
    | some v =>
        rw [heid] at h5
        simp only [h5, if_true]
        cases hex : ({ st with eventTypes := ets } : Store).matchEvents.find?
            (fun x => x.id = (some v : Option Int).getD 0) with
        | none =>
            simp only [hex]
            rw [find?_append_none _ _ _ hex]
            rw [List.find?_cons_of_pos _ (by simp)]
            exact ⟨_, rfl, hrel⟩
        | some x =>
            simp only [hex]
            refine ⟨_, find?_updateFirst_found _ _ _ x hex ?_, hrel⟩
            rfl

end ClaimC7

section Fixtures

/-- A store holding one match (external id "1"), one match team and one
participant, as left by earlier imports. -/
def wMatchRow : MatchRow :=
  { id := 1, matchNr := "000026015", date := "2025-04-11", time := "19:00",
    footballTypeId := 1, status := "normal", isWalkover := false,
    fogisId := some "1" }

def wMatchTeam : MatchTeamRow :=
  { id := 5, matchId := 1, teamId := 2, isHomeTeam := true }

def wParticipant : MatchParticipantRow :=
  { id := 7, matchId := 1, matchTeamId := 5, playerId := 3,
    isCaptain := false, isSubstitute := false, isPlayingLeader := false,
    isResponsible := false, accumulatedWarnings := 0,
    suspensionDescription := "" }

def wStore : Store :=
  { matchRows := [wMatchRow], matchTeams := [wMatchTeam],
    matchParticipants := [wParticipant] }

/-- A participant record updating the existing participant 7, with a
substitution-in sentinel 0 and a substitution-out minute 75. -/
def wPartRec : ParticipantRecord :=
  { matchid := some 1, matchlagid := some 5, spelareid := some 3,
    matchdeltagareid := some 7,
    person := { personid := some 3, personnamn := some "Test Player" },
    byte1 := some 0, byte2 := some 75 }

/-- A new participant record (external participant id 67890). -/
def wPartRecNew : ParticipantRecord :=
  { matchid := some 1, matchlagid := some 5, spelareid := some 3,
    matchdeltagareid := some 67890,
    person := { personid := some 3, personnamn := some "Test Player" },
    byte1 := some 0, byte2 := some 75 }

/-- An event record whose event-type id 99 is new and whose event-type
display name contains "kort", with a nonzero related-event id. -/
def wEventRec : EventRecord :=
  { matchid := some 1, matchhandelsetypid := some 99,
    matchdeltagareid := some 7, matchlagid := some 5,
    matchhandelseid := some 1000,
    matchhandelsetypnamn := some "Gult kort",
    relateradTillMatchhandelseID := some 123 }

/-- An event record whose external event id is the 0 sentinel: the source
still passes it verbatim as the primary key, with fogis_id left unset. -/
def wEventRec0 : EventRecord :=
  { wEventRec with matchhandelseid := some 0 }

/-- A result record carrying its own external result id 555. -/
def wResultRec : ResultRecord :=
  { matchid := some 1, matchresultattypid := some 2,
    matchresultatid := some 555,
    matchresultattypnamn := some "Slutresultat",
    matchlag1mal := some 2, matchlag2mal := some 2 }

/-- A person-record fragment with external person id 7. -/
def wPersonData : PersonData :=
  { personid := some 7, personnamn := some "Anna Svensson" }

end Fixtures

section ClaimC3

/-- C3: the claim says a new EventType row's boolean flags are derived from
the event record's event-type display name; on the code, importing an event
whose new event-type id 99 carries the display name "Gult kort" creates the
EventType with name "Unknown" and all flags false — `_check_event_entities`
passes the empty dictionary to `_get_or_create_event_type`, so the record's
display name never reaches the derivation — while the derivation applied to
the record's own data (second conjunct) would set is_card. -/
theorem c3_event_type_flags_code_behavior :
    (importMatchEvents wStore [wEventRec]).2.eventTypes
      = [{ id := 99, name := "Unknown", isGoal := false, isPenalty := false,
           isCard := false, isSubstitution := false, affectsScore := false }]
    ∧ (getOrCreateEventType wStore 99
        { matchhandelsetypnamn := some "Gult kort",
          matchhandelsetypmedforstallningsandring := some false }).2.isCard
        = true := by
  exact ⟨by decide, by decide⟩

end ClaimC3

section ClaimC8

/-- C8 counterexample: the claim says created Person, MatchResult,
MatchEvent and MatchParticipant rows get a store-generated primary key with
the external id kept separately in fogis_id; on the code, each of the four
creations takes the external identifier itself as the primary key (the
auto-id counter stays at 1 throughout), and Person/MatchParticipant rows
get no fogis_id at all. -/
theorem c8_primary_key_counterexample :
    (getOrCreatePerson emptyStore wPersonData).1.persons.map
        (fun p => (p.id, p.fogisId)) = [((7 : Int), (none : Option String))]
    ∧ (getOrCreatePerson emptyStore wPersonData).1.nextId = 1
    ∧ (importMatchResults wStore [wResultRec]).2.matchResults.map
        (fun x => (x.id, x.fogisId)) = [((555 : Int), some "555")]
    ∧ (importMatchResults wStore [wResultRec]).2.nextId = 1
    ∧ (importMatchEvents wStore [wEventRec]).2.matchEvents.map
        (fun x => (x.id, x.fogisId)) = [((1000 : Int), some "1000")]
    ∧ (importMatchEvents wStore [wEventRec]).2.nextId = 1
    ∧ (importMatchParticipants wStore [wPartRecNew]).2.matchParticipants.map
        (fun x => (x.id, x.fogisId))
        = [((7 : Int), (none : Option String)),
           ((67890 : Int), (none : Option String))]
    ∧ (importMatchParticipants wStore [wPartRecNew]).2.nextId = 1 := by
  refine ⟨rfl, rfl, ?_, rfl, rfl, rfl, rfl, rfl⟩
  rfl

/-- C8 (amended): created Person and MatchParticipant rows take their
primary key directly from the source record's external identifier and leave
fogis_id unset; created MatchResult rows take the external result id as
primary key when it is truthy (storing it also in fogis_id) and draw an
auto-generated key when it is absent or 0; created MatchEvent rows take the
external event id as primary key whenever the field is present — including
the 0 sentinel — storing it in fogis_id only when nonzero, and draw an
auto-generated key only when the field is absent. -/
theorem c8_amended_primary_keys :
    (∀ (st : Store) (d : PersonData),
      truthyInt d.personid = true →
      st.persons.find? (fun x => x.id = d.personid.getD 0) = none →
      ∃ p, (getOrCreatePerson st d).1.persons = st.persons ++ [p]
        ∧ p.id = d.personid.getD 0 ∧ p.fogisId = none)
    ∧ (∀ (st : Store) (r : ResultRecord) (m : MatchRow),
      truthyInt r.matchid = true → truthyInt r.matchresultattypid = true →
      st.matchRows.find?
          (fun x => x.fogisId = some (pyStr (r.matchid.getD 0))) = some m →
      st.matchResults.find?
          (fun x => x.id = r.matchresultatid.getD 0) = none →
      st.matchResults.find?
          (fun x => x.matchId = m.id
            && x.resultTypeId = r.matchresultattypid.getD 0) = none →
      ∃ row, (importMatchResults st [r]).2.matchResults
          = st.matchResults ++ [row]
        ∧ row.id = (if truthyInt r.matchresultatid then
              r.matchresultatid.getD 0 else st.nextId)
        ∧ row.fogisId = (if truthyInt r.matchresultatid then
              some (pyStr (r.matchresultatid.getD 0)) else none))
    ∧ (∀ (st : Store) (r : EventRecord) (m : MatchRow),
      truthyInt r.matchid = true → truthyInt r.matchhandelsetypid = true →
      truthyInt r.matchdeltagareid = true → truthyInt r.matchlagid = true →
      st.matchRows.find?
          (fun x => x.fogisId = some (pyStr (r.matchid.getD 0))) = some m →
      (st.matchParticipants.find?
          (fun x => x.id = r.matchdeltagareid.getD 0)).isSome = true →
      (st.matchTeams.find?
          (fun x => x.id = r.matchlagid.getD 0)).isSome = true →
      st.matchEvents.find?
          (fun x => x.id = r.matchhandelseid.getD 0) = none →
      ∃ row, (importMatchEvents st [r]).2.matchEvents
          = st.matchEvents ++ [row]
        ∧ row.id = (match r.matchhandelseid with
            | some v => v
            | none => st.nextId)
        ∧ row.fogisId = (if truthyInt r.matchhandelseid then
              some (pyStr (r.matchhandelseid.getD 0)) else none))
    ∧ (∀ (st : Store) (r : ParticipantRecord) (m : MatchRow)
        (mt : MatchTeamRow),
      truthyInt r.matchid = true → truthyInt r.matchlagid = true →
      truthyInt r.spelareid = true → truthyInt r.matchdeltagareid = true →
      st.matchRows.find?
          (fun x => x.fogisId = some (pyStr (r.matchid.getD 0))) = some m →
      st.matchTeams.find? (fun x => x.id = r.matchlagid.getD 0) = some mt →
      truthyInt r.person.personid = true →
      st.matchParticipants.find?
          (fun x => x.id = r.matchdeltagareid.getD 0) = none →
      ∃ ps row, (importMatchParticipants st [r]).2.matchParticipants
          = ps ++ [row]
        ∧ row.id = r.matchdeltagareid.getD 0 ∧ row.fogisId = none) := by
  refine ⟨?_, ?_, ?_, ?_⟩
  · intro st d h hnone
    rw [getOrCreatePerson]
    simp only [h, Bool.not_true, Bool.false_eq_true, if_false, hnone]
    exact ⟨_, rfl, rfl, rfl⟩
  · intro st r m h1 h2 hm hbyid hbypair
    rw [importMatchResults, runRecords]
    rw [resultBody]
    simp +decide only [h1, h2, hm, runRecords_nil, if_false]
    rw [getOrCreateResultType]
    cases hrt : st.resultTypes.find?
        (fun x => x.id = r.matchresultattypid.getD 0) with
    | some rt =>
        have hrtid : rt.id = r.matchresultattypid.getD 0 := by
          have := List.find?_some hrt
          simpa using this
        cases htr : truthyInt r.matchresultatid with
        | true =>
            simp only [htr, if_true, hbyid, hrtid, hbypair, runRecords_nil]
            exact ⟨_, rfl, by simp [htr], by simp [htr]⟩
        | false =>
            simp only [htr, Bool.false_eq_true, if_false, hrtid, hbypair,
              runRecords_nil]
            exact ⟨_, rfl, by simp [htr, Store.genId], by simp [htr]⟩
    | none =>
        cases htr : truthyInt r.matchresultatid with
        | true =>
            simp only [htr, if_true, hbyid, hbypair, runRecords_nil]
            exact ⟨_, rfl, by simp [htr], by simp [htr]⟩
        | false =>
            simp only [htr, Bool.false_eq_true, if_false, hbypair,
              runRecords_nil]
            exact ⟨_, rfl, by simp [htr, Store.genId], by simp [htr]⟩
  · intro st r m h1 h2 h3 h4 hm hp ht hnone
    obtain ⟨ets, hce⟩ := checkEventEntities_found_shape st
      (r.matchid.getD 0) (r.matchdeltagareid.getD 0) (r.matchlagid.getD 0)
      (r.matchhandelsetypid.getD 0) m hm hp ht
    rw [importMatchEvents, runRecords]
    rw [eventBody]
    simp +decide only [h1, h2, h3, h4, hce, runRecords_nil, if_false]
    rw [createOrUpdateEvent]
    cases heid : r.matchhandelseid with
    | none =>
        exact ⟨_, rfl, rfl, rfl⟩
    | some v =>
        by_cases hv : v = 0
        · subst hv
          exact ⟨_, rfl, rfl, rfl⟩
        · have htr : truthyInt (some v) = true := by
            simp [truthyInt, hv]
          rw [heid] at hnone
          simp only [htr, if_true, hnone]
          exact ⟨_, rfl, rfl, rfl⟩
  · intro st r m mt h1 h2 h3 h4 hm hmt hp hnone
    obtain ⟨ps, p, hpp⟩ := getOrCreatePerson_some_shape st r.person hp
    rw [importMatchParticipants, runRecords]
    rw [participantBody]
    simp +decide only [h1, h2, h3, h4, hm, hmt, hpp, hnone, runRecords_nil,
      if_false]
    exact ⟨_, _, rfl, rfl, rfl⟩

/-- Witness for the amended C8 at the concrete fixture inputs. -/
theorem c8_amended_primary_keys_witness :
    (∃ p, (getOrCreatePerson wStore wPersonData).1.persons = [] ++ [p]
      ∧ p.id = (7 : Int) ∧ p.fogisId = none)
    ∧ (∃ row, (importMatchResults wStore [wResultRec]).2.matchResults
          = [] ++ [row]
        ∧ row.id = (555 : Int) ∧ row.fogisId = some "555")
    ∧ (∃ row, (importMatchEvents wStore [wEventRec]).2.matchEvents
          = [] ++ [row]
        ∧ row.id = (1000 : Int) ∧ row.fogisId = some "1000")
    ∧ (∃ row, (importMatchEvents wStore [wEventRec0]).2.matchEvents
          = [] ++ [row]
        ∧ row.id = (0 : Int) ∧ row.fogisId = none)
    ∧ (∃ ps row,
        (importMatchParticipants wStore [wPartRecNew]).2.matchParticipants
          = ps ++ [row]
        ∧ row.id = (67890 : Int) ∧ row.fogisId = none) :=
  ⟨c8_amended_primary_keys.1 wStore wPersonData rfl rfl,
   c8_amended_primary_keys.2.1 wStore wResultRec wMatchRow rfl rfl rfl rfl rfl,
   c8_amended_primary_keys.2.2.1 wStore wEventRec wMatchRow rfl rfl rfl rfl
     rfl rfl rfl rfl,
   c8_amended_primary_keys.2.2.1 wStore wEventRec0 wMatchRow rfl rfl rfl rfl
     rfl rfl rfl rfl,
   c8_amended_primary_keys.2.2.2 wStore wPartRecNew wMatchRow wMatchTeam
     rfl rfl rfl rfl rfl rfl rfl rfl⟩

end ClaimC8

section ClaimC7Witness

/-- Witness for C7: importing the fixture participant record stores a null
substitution-in (sentinel 0) and the verbatim substitution-out minute 75,
and importing the fixture event record stores the verbatim related-event id
123. -/
theorem c7_sentinel_normalization_witness :
    (∃ row, (importMatchParticipants wStore [wPartRec]).2.matchParticipants.find?
          (fun x => x.id = wPartRec.matchdeltagareid.getD 0) = some row
      ∧ row.substitutionInMinute = none
      ∧ row.substitutionOutMinute = some 75)
    ∧ (∃ row, (importMatchEvents wStore [wEventRec]).2.matchEvents.find?
          (fun x => x.id = wEventRec.matchhandelseid.getD 0) = some row
      ∧ row.relatedEventId = some 123) := by
  constructor
  · obtain ⟨row, hf, h1, h2⟩ := c7_sentinel_normalization.1 wStore wPartRec
      wMatchRow wMatchTeam rfl rfl rfl rfl rfl rfl rfl
    exact ⟨row, hf, h1, h2⟩
  · obtain ⟨row, hf, h1⟩ := c7_sentinel_normalization.2 wStore wEventRec
      wMatchRow rfl rfl rfl rfl rfl rfl rfl rfl
    exact ⟨row, hf, h1⟩

end ClaimC7Witness

section ClaimC2

/-- C2: no MatchResult, MatchEvent or MatchParticipant row is created or
updated for a record whose external match id does not correspond to an
existing Match: the record is skipped without any exception, the store is
left exactly as it was, and the returned count excludes it (importing the
batch with the record equals importing the batch without it). -/
theorem c2_unknown_match_skipped (st : Store) :
    (∀ (r : ResultRecord) (rs : List ResultRecord),
      truthyInt r.matchid = true →
      st.matchRows.find?
          (fun m => m.fogisId = some (pyStr (r.matchid.getD 0))) = none →
      importMatchResults st (r :: rs) = importMatchResults st rs)
    ∧ (∀ (r : EventRecord) (rs : List EventRecord),
      truthyInt r.matchid = true →
      st.matchRows.find?
          (fun m => m.fogisId = some (pyStr (r.matchid.getD 0))) = none →
      importMatchEvents st (r :: rs) = importMatchEvents st rs)
    ∧ (∀ (r : ParticipantRecord) (rs : List ParticipantRecord),
      truthyInt r.matchid = true →
      st.matchRows.find?
          (fun m => m.fogisId = some (pyStr (r.matchid.getD 0))) = none →
      importMatchParticipants st (r :: rs) = importMatchParticipants st rs) := by
  refine ⟨?_, ?_, ?_⟩
  · intro r rs h1 hnone
    rw [importMatchResults, importMatchResults]
    refine runRecords_cons_skip _ _ _ _ _ ?_
    rw [resultBody]
    cases h2 : truthyInt r.matchresultattypid with
    | false => simp [h1, h2]
    | true => simp [h1, h2, hnone]
  · intro r rs h1 hnone
    rw [importMatchEvents, importMatchEvents]
    refine runRecords_cons_skip _ _ _ _ _ ?_
    rw [eventBody]
    cases hv : (truthyInt r.matchhandelsetypid && truthyInt r.matchdeltagareid
        && truthyInt r.matchlagid) with
    | false =>
        rcases Bool.and_eq_false_iff.1 hv with h | h
        · rcases Bool.and_eq_false_iff.1 h with h' | h'
          · simp [h1, h']
          · simp [h1, h']
        · simp [h1, h]
    | true =>
        obtain ⟨h23, h4⟩ := Bool.and_eq_true_iff.1 hv
        obtain ⟨h2, h3⟩ := Bool.and_eq_true_iff.1 h23
        simp only [h1, h2, h3, h4, Bool.and_self, Bool.not_true,
          Bool.false_eq_true, if_false]
        rw [checkEventEntities, hnone]
  · intro r rs h1 hnone
    rw [importMatchParticipants, importMatchParticipants]
    refine runRecords_cons_skip _ _ _ _ _ ?_
    rw [participantBody]
    cases hv : (truthyInt r.matchlagid && truthyInt r.spelareid
        && truthyInt r.matchdeltagareid) with
    | false =>
        rcases Bool.and_eq_false_iff.1 hv with h | h
        · rcases Bool.and_eq_false_iff.1 h with h' | h'
          · simp [h1, h']
          · simp [h1, h']
        · simp [h1, h]
    | true =>
        obtain ⟨h23, h4⟩ := Bool.and_eq_true_iff.1 hv
        obtain ⟨h2, h3⟩ := Bool.and_eq_true_iff.1 h23
        simp only [h1, h2, h3, h4, Bool.and_self, Bool.not_true,
          Bool.false_eq_true, if_false, hnone]

/-- A result record referring to the unknown external match id 42. -/
def c2ResultRec : ResultRecord :=
  { matchid := some 42, matchresultattypid := some 1 }

/-- An event record referring to the unknown external match id 42. -/
def c2EventRec : EventRecord :=
  { matchid := some 42, matchhandelsetypid := some 1,
    matchdeltagareid := some 7, matchlagid := some 5 }

/-- A participant record referring to the unknown external match id 42. -/
def c2PartRec : ParticipantRecord :=
  { matchid := some 42, matchlagid := some 5, spelareid := some 3,
    matchdeltagareid := some 7 }

/-- Witness for C2: a result, an event and a participant record referring
to the unknown external match id 42 leave the empty store untouched and
count zero. -/
theorem c2_unknown_match_skipped_witness :
    importMatchResults emptyStore [c2ResultRec]
      = importMatchResults emptyStore []
    ∧ importMatchEvents emptyStore [c2EventRec]
      = importMatchEvents emptyStore []
    ∧ importMatchParticipants emptyStore [c2PartRec]
      = importMatchParticipants emptyStore [] :=
  ⟨(c2_unknown_match_skipped emptyStore).1 _ [] rfl rfl,
   (c2_unknown_match_skipped emptyStore).2.1 _ [] rfl rfl,
   (c2_unknown_match_skipped emptyStore).2.2 _ [] rfl rfl⟩

end ClaimC2

section ClaimC4

/-- C4: the Match importer's count excludes every record lacking a nonempty
external match id and every record whose processing raises; a missing-id
record is skipped with the store untouched, a raising record is skipped
keeping whatever state the session reached, processing always continues
with the remaining records, and no per-record outcome propagates as an
exception (the loop is a total function). -/
theorem c4_match_record_isolation (body : Store → MatchRecord → RecOutcome Store)
    (now : String) (st : Store) (r : MatchRecord) (rs : List MatchRecord) :
    (truthyInt r.matchid = false →
      importMatches now st (r :: rs) = importMatches now st rs)
    ∧ (∀ st', body st r = .skip st' →
      runRecords body st (r :: rs) = runRecords body st' rs)
    ∧ (∀ st', body st r = .exc st' →
      runRecords body st (r :: rs) = runRecords body st' rs)
    ∧ (∀ st', body st r = .ok st' →
      (runRecords body st (r :: rs)).1 = (runRecords body st' rs).1 + 1) := by
  refine ⟨?_, ?_, ?_, ?_⟩
  · intro h
    rw [importMatches, importMatches]
    refine runRecords_cons_skip _ _ _ _ _ ?_
    rw [matchBody, h]
    rfl
  · intro st' h
    exact runRecords_cons_skip _ _ _ _ _ h
  · intro st' h
    exact runRecords_cons_exc _ _ _ _ _ h
  · intro st' h
    rw [runRecords_cons_ok _ _ _ _ _ h]

/-- Witness for C4: a match record with no matchid contributes nothing, a
skipping body outcome and an exception body outcome continue the loop, and
a successful record counts one. -/
theorem c4_match_record_isolation_witness :
    importMatches "2025-01-01" emptyStore [{}]
      = importMatches "2025-01-01" emptyStore []
    ∧ runRecords (fun st (_ : MatchRecord) => RecOutcome.exc st)
        emptyStore [{}]
      = runRecords (fun st (_ : MatchRecord) => RecOutcome.exc st)
        emptyStore []
    ∧ (runRecords (fun st (_ : MatchRecord) => RecOutcome.ok st)
        emptyStore [{}]).1
      = (runRecords (fun st (_ : MatchRecord) => RecOutcome.ok st)
        emptyStore []).1 + 1 :=
  ⟨(c4_match_record_isolation (matchBody "2025-01-01") "2025-01-01"
      emptyStore {} []).1 rfl,
   (c4_match_record_isolation (fun st _ => RecOutcome.exc st) "2025-01-01"
      emptyStore {} []).2.2.1 emptyStore rfl,
   (c4_match_record_isolation (fun st _ => RecOutcome.ok st) "2025-01-01"
      emptyStore {} []).2.2.2 emptyStore rfl⟩

end ClaimC4

section ClaimC1Defs

/-- At most one row per key: the keys of the rows are pairwise distinct. -/
def UniqueBy (key : α → κ) (l : List α) : Prop := (l.map key).Nodup

/-- The number of records of a match file carrying a nonempty external
match id (the records `_import_matches` successfully processes when no
record raises). -/
def validMatchCount (data : List MatchRecord) : Nat :=
  (data.filter (fun r => truthyInt r.matchid)).length

/-- The external match key as the importer stores it: `str(matchid)`. -/
def extMatchKey (r : MatchRecord) : String := pyStr (r.matchid.getD 0)

/-- Every table keyed by an external identifier in the match-import path
has at most one row per key (matches are keyed by their stored external
id). -/
def StoreUniqueExt (st : Store) : Prop :=
  UniqueBy VenueRow.id st.venues
  ∧ UniqueBy CategoryRow.id st.categories
  ∧ UniqueBy CompetitionRow.id st.competitions
  ∧ UniqueBy ClubRow.id st.clubs
  ∧ UniqueBy TeamRow.id st.teams
  ∧ UniqueBy PersonRow.id st.persons
  ∧ UniqueBy RefereeRow.id st.referees
  ∧ UniqueBy RefereeRoleRow.id st.refereeRoles
  ∧ UniqueBy MatchRow.fogisId st.matchRows

/-- One import step only ever updates existing Match rows in place
(preserving their internal id and external key) and appends new rows. -/
def MatchesEvolve (old new : List MatchRow) : Prop :=
  ∃ pre post, new = pre ++ post
    ∧ List.Forall₂ (fun o n => n.id = o.id ∧ n.fogisId = o.fogisId) old pre

theorem uniqueBy_updateFirst (key : α → κ) (p : α → Bool) (f : α → α)
    (l : List α) (hf : ∀ a, key (f a) = key a) (h : UniqueBy key l) :
    UniqueBy key (updateFirst p f l) := by
  unfold UniqueBy at h ⊢
  rw [map_updateFirst key p f hf l]
  exact h

theorem uniqueBy_append (key : α → κ) (l : List α) (x : α)
    (hx : ∀ a ∈ l, ¬ key a = key x) (h : UniqueBy key l) :
    UniqueBy key (l ++ [x]) := by
  unfold UniqueBy at h ⊢
  rw [List.map_append]
  refine List.Nodup.append h (List.nodup_singleton _) ?_
  intro b hb hbx
  simp only [List.map_singleton, List.mem_singleton] at hbx
  obtain ⟨a, ha, rfl⟩ := List.mem_map.1 hb
  exact hx a ha hbx

theorem matchesEvolve_refl (l : List MatchRow) : MatchesEvolve l l :=
  ⟨l, [], by simp, List.forall₂_same.2 fun a _ => ⟨rfl, rfl⟩⟩

theorem forall₂_comp_matches {old mid pre : List MatchRow}
    (h1 : List.Forall₂ (fun o n => n.id = o.id ∧ n.fogisId = o.fogisId) old mid)
    (h2 : List.Forall₂ (fun o n => n.id = o.id ∧ n.fogisId = o.fogisId) mid pre) :
    List.Forall₂ (fun o n => n.id = o.id ∧ n.fogisId = o.fogisId) old pre := by
  induction h1 generalizing pre with
  | nil => cases h2; exact List.Forall₂.nil
  | cons hr hrest ih =>
      cases h2 with
      | cons hr2 hrest2 =>
          exact List.Forall₂.cons
            ⟨hr2.1.trans hr.1, hr2.2.trans hr.2⟩ (ih hrest2)

theorem forall₂_append_split {R : α → β → Prop} {l₁ l₂ : List α}
    {l : List β} (h : List.Forall₂ R (l₁ ++ l₂) l) :
    ∃ m₁ m₂, l = m₁ ++ m₂ ∧ List.Forall₂ R l₁ m₁ ∧ List.Forall₂ R l₂ m₂ := by
  induction l₁ generalizing l with
  | nil => exact ⟨[], l, rfl, List.Forall₂.nil, h⟩
  | cons a l₁ ih =>
      cases h with
      | cons hr hrest =>
          obtain ⟨m₁, m₂, rfl, hf₁, hf₂⟩ := ih hrest
          exact ⟨_ :: m₁, m₂, rfl, List.Forall₂.cons hr hf₁, hf₂⟩

theorem matchesEvolve_trans {l1 l2 l3 : List MatchRow}
    (h12 : MatchesEvolve l1 l2) (h23 : MatchesEvolve l2 l3) :
    MatchesEvolve l1 l3 := by
  obtain ⟨pre1, post1, rfl, hf1⟩ := h12
  obtain ⟨pre2, post2, rfl, hf2⟩ := h23
  obtain ⟨pre2a, pre2b, rfl, hfa, hfb⟩ := forall₂_append_split hf2
  exact ⟨pre2a, pre2b ++ post2, by simp, forall₂_comp_matches hf1 hfa⟩

theorem matchesEvolve_updateFirst (p : MatchRow → Bool)
    (f : MatchRow → MatchRow) (l : List MatchRow)
    (hf : ∀ a, (f a).id = a.id ∧ (f a).fogisId = a.fogisId) :
    MatchesEvolve l (updateFirst p f l) :=
  ⟨updateFirst p f l, [], by simp,
   forall₂_updateFirst _ p f (fun _ => ⟨rfl, rfl⟩) hf l⟩

theorem matchesEvolve_append (l : List MatchRow) (x : MatchRow) :
    MatchesEvolve l (l ++ [x]) :=
  ⟨l, [x], rfl, List.forall₂_same.2 fun _ _ => ⟨rfl, rfl⟩⟩

theorem matchesEvolve_find? {old new : List MatchRow} (k : String)
    {m : MatchRow}
    (hold : old.find? (fun x => x.fogisId = some k) = some m)
    (hev : MatchesEvolve old new) :
    ∃ m', new.find? (fun x => x.fogisId = some k) = some m'
      ∧ m'.id = m.id ∧ m'.fogisId = m.fogisId := by
  obtain ⟨pre, post, rfl, hf⟩ := hev
  induction hf with
  | nil => simp [List.find?] at hold
  | cons hr hrest ih =>
      rename_i o n os ns
      cases ho : (fun x : MatchRow => decide (x.fogisId = some k)) o with
      | true =>
          simp only [List.find?_cons, ho] at hold
          cases hold
          refine ⟨n, ?_, hr.1, hr.2⟩
          have hn : (fun x : MatchRow => decide (x.fogisId = some k)) n
              = true := by
            simp only [decide_eq_true_eq] at ho ⊢
            rw [hr.2, ho]
          simp [List.find?_cons, hn]
      | false =>
          simp only [List.find?_cons, ho] at hold
          have hn : (fun x : MatchRow => decide (x.fogisId = some k)) n
              = false := by
            simp only [decide_eq_false_iff_not] at ho ⊢
            rw [hr.2]; exact ho
          simpa [List.find?_cons, hn] using ih hold

theorem countP_eq_one_of_uniqueBy (key : α → κ) [DecidableEq κ]
    (l : List α) (k : κ) (hu : UniqueBy key l) (x : α)
    (hx : l.find? (fun a => key a = k) = some x) :
    l.countP (fun a => key a = k) = 1 := by
  induction l with
  | nil => simp [List.find?] at hx
  | cons a l ih =>
      unfold UniqueBy at hu
      rw [List.map_cons, List.nodup_cons] at hu
      cases ha : (fun y => decide (key y = k)) a with
      | true =>
          simp only [decide_eq_true_eq] at ha
          rw [List.countP_cons]
          have hpa : decide (key a = k) = true := by simp [ha]
          have hzero : l.countP (fun y => decide (key y = k)) = 0 := by
            rw [List.countP_eq_zero]
            intro b hb
            simp only [decide_eq_true_eq]
            intro hbk
            refine hu.1 ?_
            rw [ha, ← hbk]
            exact List.mem_map_of_mem key hb
          rw [hzero, hpa]
          rfl
      | false =>
          simp only [List.find?_cons, ha] at hx
          rw [List.countP_cons]
          simp only [ha, if_false]
          exact ih hu.2 hx

end ClaimC1Defs

section ClaimC1Effects

theorem getOrCreateVenue_effects (st : Store) (r : MatchRecord) :
    (getOrCreateVenue st r).1
      = { st with venues := (getOrCreateVenue st r).1.venues }
    ∧ (UniqueBy VenueRow.id st.venues
        → UniqueBy VenueRow.id (getOrCreateVenue st r).1.venues) := by
  rw [getOrCreateVenue]
  cases hc : (truthyInt r.anlaggningid && truthyStr r.anlaggningnamn) with
  | false =>
      simp only [hc, Bool.not_false, if_true]
      exact ⟨trivial, fun h => h⟩
  | true =>
      simp only [hc, Bool.not_true, Bool.false_eq_true, if_false]
      cases hfind : st.venues.find?
          (fun v => v.id = r.anlaggningid.getD 0) with
      | some v =>
          simp only [hfind]
          refine ⟨by trivial, fun h => ?_⟩
          apply uniqueBy_updateFirst
          · exact fun a => rfl
          · exact h
      | none =>
          simp only [hfind]
          refine ⟨by trivial, fun h => ?_⟩
          apply uniqueBy_append
          · intro a ha
            have := List.find?_eq_none.1 hfind a ha
            simpa using this
          · exact h

theorem getOrCreatePerson_effects (st : Store) (d : PersonData) :
    (getOrCreatePerson st d).1
      = { st with persons := (getOrCreatePerson st d).1.persons }
    ∧ (UniqueBy PersonRow.id st.persons
        → UniqueBy PersonRow.id (getOrCreatePerson st d).1.persons) := by
  rw [getOrCreatePerson]
  cases hc : truthyInt d.personid with
  | false =>
      simp only [hc, Bool.not_false, if_true]
      exact ⟨trivial, fun h => h⟩
  | true =>
      simp only [hc, Bool.not_true, Bool.false_eq_true, if_false]
      cases hfind : st.persons.find? (fun x => x.id = d.personid.getD 0) with
      | some p =>
          simp only [hfind]
          refine ⟨by trivial, fun h => ?_⟩
          apply uniqueBy_updateFirst
          · exact fun a => rfl
          · exact h
      | none =>
          simp only [hfind]
          refine ⟨by trivial, fun h => ?_⟩
          apply uniqueBy_append
          · intro a ha
            have := List.find?_eq_none.1 hfind a ha
            simpa using this
          · exact h

theorem getOrCreateReferee_effects (st : Store) (refereeId : Int)
    (person : PersonRow) :
    (getOrCreateReferee st refereeId person).1
      = { st with referees := (getOrCreateReferee st refereeId person).1.referees }
    ∧ (UniqueBy RefereeRow.id st.referees
        → UniqueBy RefereeRow.id
            (getOrCreateReferee st refereeId person).1.referees) := by
  rw [getOrCreateReferee]
  cases hfind : st.referees.find? (fun x => x.id = refereeId) with
  | some ref =>
      simp only [hfind]
      refine ⟨by trivial, fun h => ?_⟩
      apply uniqueBy_updateFirst
      · exact fun a => rfl
      · exact h
  | none =>
      simp only [hfind]
      refine ⟨by trivial, fun h => ?_⟩
      apply uniqueBy_append
      · intro a ha
        have := List.find?_eq_none.1 hfind a ha
        simpa using this
      · exact h

theorem getOrCreateCompetition_effects (st : Store) (r : MatchRecord) :
    (getOrCreateCompetition st r).1
      = { st with
            categories := (getOrCreateCompetition st r).1.categories,
            competitions := (getOrCreateCompetition st r).1.competitions }
    ∧ (UniqueBy CategoryRow.id st.categories
        → UniqueBy CategoryRow.id (getOrCreateCompetition st r).1.categories)
    ∧ (UniqueBy CompetitionRow.id st.competitions
        → UniqueBy CompetitionRow.id
            (getOrCreateCompetition st r).1.competitions) := by
  rw [getOrCreateCompetition]
  cases hc : (truthyInt r.tavlingid && truthyStr r.tavlingnamn) with
  | false =>
      simp only [hc, Bool.not_false, if_true]
      exact ⟨trivial, fun h => h, fun h => h⟩
  | true =>
      simp only [hc, Bool.not_true, Bool.false_eq_true, if_false]
      cases hkat : (truthyInt r.tavlingskategoriid
          && truthyStr r.tavlingskategorinamn) with
      | false =>
          simp only [hkat, Bool.false_eq_true, if_false]
          cases hcomp : st.competitions.find?
              (fun c => c.id = r.tavlingid.getD 0) with
          | some c =>
              simp only [hcomp]
              refine ⟨by trivial, fun h => h, fun h => ?_⟩
              apply uniqueBy_updateFirst
              · exact fun a => rfl
              · exact h
          | none =>
              simp only [hcomp]
              refine ⟨by trivial, fun h => h, fun h => ?_⟩
              apply uniqueBy_append
              · intro a ha
                have := List.find?_eq_none.1 hcomp a ha
                simpa using this
              · exact h
      | true =>
          simp only [hkat, if_true]
          cases hkfind : st.categories.find?
              (fun k => k.id = r.tavlingskategoriid.getD 0) with
          | some k =>
              simp only [hkfind]
              cases hcomp : st.competitions.find?
                  (fun c => c.id = r.tavlingid.getD 0) with
              | some c =>
                  simp only [hcomp]
                  refine ⟨by trivial, fun h => h, fun h => ?_⟩
                  apply uniqueBy_updateFirst
                  · exact fun a => rfl
                  · exact h
              | none =>
                  simp only [hcomp]
                  refine ⟨by trivial, fun h => h, fun h => ?_⟩
                  apply uniqueBy_append
                  · intro a ha
                    have := List.find?_eq_none.1 hcomp a ha
                    simpa using this
                  · exact h
          | none =>
              simp only [hkfind]
              cases hcomp : st.competitions.find?
                  (fun c => c.id = r.tavlingid.getD 0) with
              | some c =>
                  simp only [hcomp]
                  refine ⟨by trivial, fun h => ?_, fun h => ?_⟩
                  · apply uniqueBy_append
                    · intro a ha
                      have := List.find?_eq_none.1 hkfind a ha
                      simpa using this
                    · exact h
                  · apply uniqueBy_updateFirst
                    · exact fun a => rfl
                    · exact h
              | none =>
                  simp only [hcomp]
                  refine ⟨by trivial, fun h => ?_, fun h => ?_⟩
                  · apply uniqueBy_append
                    · intro a ha
                      have := List.find?_eq_none.1 hkfind a ha
                      simpa using this
                    · exact h
                  · apply uniqueBy_append
                    · intro a ha
                      have := List.find?_eq_none.1 hcomp a ha
                      simpa using this
                    · exact h

theorem getOrCreateTeam_effects (st : Store) (r : MatchRecord)
    (isHome : Bool) :
    (getOrCreateTeam st r isHome).1
      = { st with
            clubs := (getOrCreateTeam st r isHome).1.clubs,
            teams := (getOrCreateTeam st r isHome).1.teams }
    ∧ (UniqueBy ClubRow.id st.clubs
        → UniqueBy ClubRow.id (getOrCreateTeam st r isHome).1.clubs)
    ∧ (UniqueBy TeamRow.id st.teams
        → UniqueBy TeamRow.id (getOrCreateTeam st r isHome).1.teams) := by
  rw [getOrCreateTeam]
  cases hc : (truthyInt (if isHome then r.lag1lagid else r.lag2lagid)
      && truthyStr (if isHome then r.lag1namn else r.lag2namn)
      && truthyInt (if isHome then r.lag1foreningid
                    else r.lag2foreningid)) with
  | false =>
      simp only [hc, Bool.not_false, if_true]
      exact ⟨trivial, fun h => h, fun h => h⟩
  | true =>
      simp only [hc, Bool.not_true, Bool.false_eq_true, if_false]
      cases hclub : st.clubs.find?
          (fun c => c.id = (if isHome then r.lag1foreningid
                            else r.lag2foreningid).getD 0) with
      | some c =>
          simp only [hclub]
          cases hteam : st.teams.find?
              (fun t => t.id = (if isHome then r.lag1lagid
                                else r.lag2lagid).getD 0) with
          | some t =>
              simp only [hteam]
              refine ⟨by trivial, fun h => h, fun h => ?_⟩
              apply uniqueBy_updateFirst
              · exact fun a => rfl
              · exact h
          | none =>
              simp only [hteam]
              refine ⟨by trivial, fun h => h, fun h => ?_⟩
              apply uniqueBy_append
              · intro a ha
                have := List.find?_eq_none.1 hteam a ha
                simpa using this
              · exact h
      | none =>
          simp only [hclub]
          cases hteam : st.teams.find?
              (fun t => t.id = (if isHome then r.lag1lagid
                                else r.lag2lagid).getD 0) with
          | some t =>
              simp only [hteam]
              refine ⟨by trivial, fun h => ?_, fun h => ?_⟩
              · apply uniqueBy_append
                · intro a ha
                  have := List.find?_eq_none.1 hclub a ha
                  simpa using this
                · exact h
              · apply uniqueBy_updateFirst
                · exact fun a => rfl
                · exact h
          | none =>
              simp only [hteam]
              refine ⟨by trivial, fun h => ?_, fun h => ?_⟩
              · apply uniqueBy_append
                · intro a ha
                  have := List.find?_eq_none.1 hclub a ha
                  simpa using this
                · exact h
              · apply uniqueBy_append
                · intro a ha
                  have := List.find?_eq_none.1 hteam a ha
                  simpa using this
                · exact h

/-- The store change wrought by referee-assignment processing: only the
persons, referees, referee-roles and referee-assignments tables and the
auto-id counter move, and the keyed tables among them stay duplicate
free. -/
def RefTablesOnly (st st' : Store) : Prop :=
  st' = { st with
            persons := st'.persons, referees := st'.referees,
            refereeRoles := st'.refereeRoles,
            refereeAssignments := st'.refereeAssignments,
            nextId := st'.nextId }
  ∧ (UniqueBy PersonRow.id st.persons → UniqueBy PersonRow.id st'.persons)
  ∧ (UniqueBy RefereeRow.id st.referees
      → UniqueBy RefereeRow.id st'.referees)
  ∧ (UniqueBy RefereeRoleRow.id st.refereeRoles
      → UniqueBy RefereeRoleRow.id st'.refereeRoles)

theorem refTablesOnly_refl (st : Store) : RefTablesOnly st st :=
  ⟨rfl, fun h => h, fun h => h, fun h => h⟩

theorem refTablesOnly_trans {st1 st2 st3 : Store}
    (h12 : RefTablesOnly st1 st2) (h23 : RefTablesOnly st2 st3) :
    RefTablesOnly st1 st3 := by
  obtain ⟨he12, hp12, hr12, ho12⟩ := h12
  obtain ⟨he23, hp23, hr23, ho23⟩ := h23
  refine ⟨?_, fun h => hp23 (hp12 h), fun h => hr23 (hr12 h),
    fun h => ho23 (ho12 h)⟩
  rw [he23, he12]

theorem processRefereeAssignment_refTables (matchId : Int) (st : Store)
    (e : RefAssignmentRecord) :
    RefTablesOnly st (processRefereeAssignment matchId st e) := by
  rw [processRefereeAssignment]
  cases hc : (truthyInt e.domareid && truthyInt e.person.personid
      && truthyInt e.domarrollid) with
  | false =>
      simp only [hc, Bool.not_false, if_true]
      exact refTablesOnly_refl st
  | true =>
      simp only [hc, Bool.not_true, Bool.false_eq_true, if_false]
      obtain ⟨hpe, hpu⟩ := getOrCreatePerson_effects st e.person
      cases hgp : getOrCreatePerson st e.person with
      | mk st1 po =>
          rw [hgp] at hpe hpu
          simp only at hpe hpu
          cases po with
          | none =>
              simp only
              exact ⟨by rw [hpe], fun h => hpu h, fun h => by rw [hpe]; exact h,
                fun h => by rw [hpe]; exact h⟩
          | some person =>
              simp only
              obtain ⟨hre, hru⟩ :=
                getOrCreateReferee_effects st1 (e.domareid.getD 0) person
              cases hgr : getOrCreateReferee st1 (e.domareid.getD 0) person with
              | mk st2 referee =>
                  rw [hgr] at hre hru
                  simp only at hre hru
                  have base12 : RefTablesOnly st st2 := by
                    refine ⟨?_, ?_, ?_, ?_⟩
                    · rw [hre, hpe]
                    · intro h
                      rw [hre]
                      exact hpu h
                    · intro h
                      rw [hre] at *
                      apply hru
                      rw [hpe]
                      exact h
                    · rw [hre, hpe]
                      exact fun h => h
                  cases hrole : st2.refereeRoles.find?
                      (fun x => x.id = e.domarrollid.getD 0) with
                  | some role =>
                      simp only [hrole]
                      refine refTablesOnly_trans base12 ?_
                      cases hass : st2.refereeAssignments.find?
                          (fun a => a.matchId = matchId
                            && a.refereeId = referee.id
                            && a.roleId = role.id) with
                      | some _ =>
                          simp only [hass]
                          exact ⟨by trivial, fun h => h, fun h => h,
                            fun h => h⟩
                      | none =>
                          simp only [hass]
                          exact ⟨by trivial, fun h => h, fun h => h,
                            fun h => h⟩
                  | none =>
                      simp only [hrole]
                      refine refTablesOnly_trans base12 ?_
                      have roleStep : RefTablesOnly st2
                          { st2 with refereeRoles := st2.refereeRoles
                              ++ [{ id := e.domarrollid.getD 0,
                                    name := e.domarrollnamn.getD "Unknown",
                                    shortName :=
                                      e.domarrollkortnamn.getD "" }] } := by
                        refine ⟨by trivial, fun h => h, fun h => h, fun h => ?_⟩
                        apply uniqueBy_append
                        · intro a ha
                          have := List.find?_eq_none.1 hrole a ha
                          simpa using this
                        · exact h
                      refine refTablesOnly_trans roleStep ?_
                      cases hass : ({ st2 with refereeRoles := _ } : Store).refereeAssignments.find?
                          (fun a => a.matchId = matchId
                            && a.refereeId = referee.id
                            && a.roleId = e.domarrollid.getD 0) with
                      | some _ =>
                          simp only [hass]
                          exact ⟨by trivial, fun h => h, fun h => h,
                            fun h => h⟩
                      | none =>
                          simp only [hass]
                          exact ⟨by trivial, fun h => h, fun h => h,
                            fun h => h⟩

theorem processRefereeAssignments_refTables (matchId : Int)
    (entries : List RefAssignmentRecord) : ∀ st : Store,
    RefTablesOnly st (processRefereeAssignments st matchId entries) := by
  induction entries with
  | nil => intro st; exact refTablesOnly_refl st
  | cons e es ih =>
      intro st
      rw [show processRefereeAssignments st matchId (e :: es)
            = processRefereeAssignments
                (processRefereeAssignment matchId st e) matchId es from rfl]
      exact refTablesOnly_trans
        (processRefereeAssignment_refTables matchId st e)
        (ih (processRefereeAssignment matchId st e))

theorem upsertMatchTeam_effects (st : Store) (matchId : Int)
    (team : Option TeamRow) (isHome : Bool) :
    upsertMatchTeam st matchId team isHome
      = { st with
            matchTeams := (upsertMatchTeam st matchId team isHome).matchTeams,
            nextId := (upsertMatchTeam st matchId team isHome).nextId } := by
  rw [upsertMatchTeam.eq_def]
  cases team with
  | none => rfl
  | some t =>
      cases hfind : st.matchTeams.find?
          (fun mt => mt.matchId = matchId && mt.teamId = t.id) with
      | some mt => simp only [hfind]
      | none => simp only [hfind, Store.genId]

/-- One step of the match import pipeline: duplicate freedom of all
externally keyed tables is preserved and the matches table only evolves
(in-place updates keeping id and external key, plus appends). -/
def C1Step (st st' : Store) : Prop :=
  (StoreUniqueExt st → StoreUniqueExt st')
  ∧ MatchesEvolve st.matchRows st'.matchRows

theorem c1Step_refl (st : Store) : C1Step st st :=
  ⟨fun h => h, matchesEvolve_refl st.matchRows⟩

theorem c1Step_trans {st1 st2 st3 : Store} (h12 : C1Step st1 st2)
    (h23 : C1Step st2 st3) : C1Step st1 st3 :=
  ⟨fun h => h23.1 (h12.1 h), matchesEvolve_trans h12.2 h23.2⟩

theorem venue_c1Step (st : Store) (r : MatchRecord) :
    C1Step st (getOrCreateVenue st r).1 := by
  obtain ⟨hsh, hu⟩ := getOrCreateVenue_effects st r
  constructor
  · intro h
    rw [hsh]
    exact ⟨hu h.1, h.2.1, h.2.2.1, h.2.2.2.1, h.2.2.2.2.1, h.2.2.2.2.2.1,
      h.2.2.2.2.2.2.1, h.2.2.2.2.2.2.2.1, h.2.2.2.2.2.2.2.2⟩
  · rw [hsh]
    exact matchesEvolve_refl st.matchRows

theorem competition_c1Step (st : Store) (r : MatchRecord) :
    C1Step st (getOrCreateCompetition st r).1 := by
  obtain ⟨hsh, hu1, hu2⟩ := getOrCreateCompetition_effects st r
  constructor
  · intro h
    rw [hsh]
    exact ⟨h.1, hu1 h.2.1, hu2 h.2.2.1, h.2.2.2.1, h.2.2.2.2.1,
      h.2.2.2.2.2.1, h.2.2.2.2.2.2.1, h.2.2.2.2.2.2.2.1,
      h.2.2.2.2.2.2.2.2⟩
  · rw [hsh]
    exact matchesEvolve_refl st.matchRows

theorem team_c1Step (st : Store) (r : MatchRecord) (isHome : Bool) :
    C1Step st (getOrCreateTeam st r isHome).1 := by
  obtain ⟨hsh, hu1, hu2⟩ := getOrCreateTeam_effects st r isHome
  constructor
  · intro h
    rw [hsh]
    exact ⟨h.1, h.2.1, h.2.2.1, hu1 h.2.2.2.1, hu2 h.2.2.2.2.1,
      h.2.2.2.2.2.1, h.2.2.2.2.2.2.1, h.2.2.2.2.2.2.2.1,
      h.2.2.2.2.2.2.2.2⟩
  · rw [hsh]
    exact matchesEvolve_refl st.matchRows

theorem matchTeams_c1Step (st : Store) (matchId : Int)
    (homeTeam awayTeam : Option TeamRow) :
    C1Step st (createOrUpdateMatchTeams st matchId homeTeam awayTeam) := by
  rw [createOrUpdateMatchTeams]
  have h1 := upsertMatchTeam_effects st matchId homeTeam true
  have h2 := upsertMatchTeam_effects (upsertMatchTeam st matchId homeTeam true)
    matchId awayTeam false
  constructor
  · intro h
    rw [h2, h1]
    exact ⟨h.1, h.2.1, h.2.2.1, h.2.2.2.1, h.2.2.2.2.1, h.2.2.2.2.2.1,
      h.2.2.2.2.2.2.1, h.2.2.2.2.2.2.2.1, h.2.2.2.2.2.2.2.2⟩
  · rw [h2, h1]
    exact matchesEvolve_refl st.matchRows

theorem refAssignments_c1Step (st : Store) (matchId : Int)
    (entries : List RefAssignmentRecord) :
    C1Step st (processRefereeAssignments st matchId entries) := by
  obtain ⟨hsh, hp, hr, ho⟩ :=
    processRefereeAssignments_refTables matchId entries st
  constructor
  · intro h
    rw [hsh]
    exact ⟨h.1, h.2.1, h.2.2.1, h.2.2.2.1, h.2.2.2.2.1, hp h.2.2.2.2.2.1,
      hr h.2.2.2.2.2.2.1, ho h.2.2.2.2.2.2.2.1, h.2.2.2.2.2.2.2.2⟩
  · rw [hsh]
    exact matchesEvolve_refl st.matchRows

theorem tail_c1 (st st5 : Store) (matchId : Int)
    (homeTeam awayTeam : Option TeamRow)
    (dl : Option (List RefAssignmentRecord)) (k : String)
    (hstep : C1Step st st5)
    (hpres : ∃ m, st5.matchRows.find?
        (fun x => x.fogisId = some k) = some m) :
    C1Step st (matchTail st5 matchId homeTeam awayTeam dl)
    ∧ ∃ m, (matchTail st5 matchId homeTeam awayTeam dl).matchRows.find?
        (fun x => x.fogisId = some k) = some m := by
  have h6 : C1Step st5
      (createOrUpdateMatchTeams st5 matchId homeTeam awayTeam) :=
    matchTeams_c1Step st5 matchId homeTeam awayTeam
  have hm6 : (createOrUpdateMatchTeams st5 matchId homeTeam awayTeam).matchRows
      = st5.matchRows := by
    rw [createOrUpdateMatchTeams]
    have h1 := upsertMatchTeam_effects st5 matchId homeTeam true
    have h2 := upsertMatchTeam_effects
      (upsertMatchTeam st5 matchId homeTeam true) matchId awayTeam false
    rw [h2, h1]
  rw [matchTail.eq_def]
  cases dl with
  | none =>
      exact ⟨c1Step_trans hstep h6, by rw [hm6]; exact hpres⟩
  | some entries =>
      by_cases hne : entries = []
      · simp only [hne, ne_eq, not_true_eq_false, if_false]
        exact ⟨c1Step_trans hstep h6, by rw [hm6]; exact hpres⟩
      · simp only [ne_eq, hne, not_false_eq_true, if_true]
        have h7 : C1Step
            (createOrUpdateMatchTeams st5 matchId homeTeam awayTeam)
            (processRefereeAssignments
              (createOrUpdateMatchTeams st5 matchId homeTeam awayTeam)
              matchId entries) :=
          refAssignments_c1Step _ matchId entries
        have hm7 : (processRefereeAssignments
              (createOrUpdateMatchTeams st5 matchId homeTeam awayTeam)
              matchId entries).matchRows
            = (createOrUpdateMatchTeams st5 matchId homeTeam
                awayTeam).matchRows := by
          have h := (processRefereeAssignments_refTables matchId entries
            (createOrUpdateMatchTeams st5 matchId homeTeam awayTeam)).1
          rw [h]
        exact ⟨c1Step_trans hstep (c1Step_trans h6 h7),
          by rw [hm7, hm6]; exact hpres⟩

theorem processMatch_c1 (now : String) (st : Store) (r : MatchRecord) :
    C1Step st (processMatch now st r)
    ∧ ∃ m, (processMatch now st r).matchRows.find?
        (fun x => x.fogisId = some (extMatchKey r)) = some m := by
  rw [processMatch]
  cases hv : getOrCreateVenue st r with
  | mk st1 venue =>
  have hs1 : C1Step st st1 := by
    have h := venue_c1Step st r
    rwa [hv] at h
  have hm1 : st1.matchRows = st.matchRows := by
    have h := (getOrCreateVenue_effects st r).1
    rw [hv] at h
    simp only at h
    rw [h]
  cases hco : getOrCreateCompetition st1 r with
  | mk st2 competition =>
  have hs2 : C1Step st1 st2 := by
    have h := competition_c1Step st1 r
    rwa [hco] at h
  have hm2 : st2.matchRows = st1.matchRows := by
    have h := (getOrCreateCompetition_effects st1 r).1
    rw [hco] at h
    simp only at h
    rw [h]
  cases hht : getOrCreateTeam st2 r true with
  | mk st3 homeTeam =>
  have hs3 : C1Step st2 st3 := by
    have h := team_c1Step st2 r true
    rwa [hht] at h
  have hm3 : st3.matchRows = st2.matchRows := by
    have h := (getOrCreateTeam_effects st2 r true).1
    rw [hht] at h
    simp only at h
    rw [h]
  cases hat : getOrCreateTeam st3 r false with
  | mk st4 awayTeam =>
  have hs4 : C1Step st3 st4 := by
    have h := team_c1Step st3 r false
    rwa [hat] at h
  have hm4 : st4.matchRows = st.matchRows := by
    have h := (getOrCreateTeam_effects st3 r false).1
    rw [hat] at h
    simp only at h
    rw [h, hm3, hm2, hm1]
  have hs14 : C1Step st st4 :=
    c1Step_trans hs1 (c1Step_trans hs2 (c1Step_trans hs3 hs4))
  simp only [hv, hco, hht, hat]
  cases hex : st.matchRows.find?
      (fun m => m.fogisId = some (pyStr (r.matchid.getD 0))) with
  | some m =>
      simp only [hex]
      refine tail_c1 st _ m.id homeTeam awayTeam r.domaruppdraglista
        (pyStr (r.matchid.getD 0)) (c1Step_trans hs14 ?_) ?_
      · constructor
        · intro h
          refine ⟨h.1, h.2.1, h.2.2.1, h.2.2.2.1, h.2.2.2.2.1,
            h.2.2.2.2.2.1, h.2.2.2.2.2.2.1, h.2.2.2.2.2.2.2.1, ?_⟩
          apply uniqueBy_updateFirst
          · exact fun a => rfl
          · exact h.2.2.2.2.2.2.2.2
        · apply matchesEvolve_updateFirst
          exact fun a => ⟨rfl, rfl⟩
      · show ∃ m', (updateFirst _ _ st4.matchRows).find? _ = some m'
        rw [hm4]
        refine ⟨_, find?_updateFirst_found _ _ _ m hex rfl⟩
  | none =>
      simp only [hex, Store.genId]
      refine tail_c1 st _ st4.nextId homeTeam awayTeam r.domaruppdraglista
        (pyStr (r.matchid.getD 0)) (c1Step_trans hs14 ?_) ?_
      · constructor
        · intro h
          refine ⟨h.1, h.2.1, h.2.2.1, h.2.2.2.1, h.2.2.2.2.1,
            h.2.2.2.2.2.1, h.2.2.2.2.2.2.1, h.2.2.2.2.2.2.2.1, ?_⟩
          apply uniqueBy_append
          · intro a ha
            rw [hm4] at ha
            have := List.find?_eq_none.1 hex a ha
            simpa using this
          · exact h.2.2.2.2.2.2.2.2
        · exact matchesEvolve_append _ _
      · have hnone : st4.matchRows.find?
            (fun x => x.fogisId = some (pyStr (r.matchid.getD 0))) = none := by
          rw [hm4]; exact hex
        dsimp only
        rw [find?_append_none _ _ _ hnone]
        rw [List.find?_cons_of_pos _ (by simp)]
        exact ⟨_, rfl⟩

theorem importMatches_c1step (now : String) (data : List MatchRecord) :
    ∀ st : Store, C1Step st (importMatches now st data).2 := by
  induction data with
  | nil =>
      intro st
      rw [importMatches, runRecords_nil]
      exact c1Step_refl st
  | cons r rs ih =>
      intro st
      rw [importMatches]
      cases ht : truthyInt r.matchid with
      | false =>
          rw [runRecords_cons_skip _ _ _ _ _ (by rw [matchBody, ht]; rfl)]
          exact ih st
      | true =>
          rw [runRecords_cons_ok _ _ _ _ _ (by rw [matchBody, ht]; rfl)]
          exact c1Step_trans (processMatch_c1 now st r).1
            (ih (processMatch now st r))

theorem importMatches_count (now : String) (data : List MatchRecord) :
    ∀ st : Store, (importMatches now st data).1 = validMatchCount data := by
  induction data with
  | nil =>
      intro st
      rw [importMatches, runRecords_nil]
      rfl
  | cons r rs ih =>
      intro st
      rw [importMatches]
      cases ht : truthyInt r.matchid with
      | false =>
          rw [runRecords_cons_skip _ _ _ _ _ (by rw [matchBody, ht]; rfl)]
          rw [show runRecords (matchBody now) st rs
                = importMatches now st rs from rfl, ih st]
          simp [validMatchCount, List.filter_cons, ht]
      | true =>
          rw [runRecords_cons_ok _ _ _ _ _ (by rw [matchBody, ht]; rfl)]
          rw [show runRecords (matchBody now) (processMatch now st r) rs
                = importMatches now (processMatch now st r) rs from rfl]
          rw [ih (processMatch now st r)]
          simp [validMatchCount, List.filter_cons, ht]

theorem importMatches_presence (now : String) (data : List MatchRecord) :
    ∀ (st : Store) (r : MatchRecord), r ∈ data →
    truthyInt r.matchid = true →
    ∃ m, (importMatches now st data).2.matchRows.find?
        (fun x => x.fogisId = some (extMatchKey r)) = some m := by
  induction data with
  | nil => intro st r hr; cases hr
  | cons d ds ih =>
      intro st r hr htr
      rw [importMatches]
      cases ht : truthyInt d.matchid with
      | false =>
          rw [runRecords_cons_skip _ _ _ _ _ (by rw [matchBody, ht]; rfl)]
          rcases List.mem_cons.1 hr with rfl | hr'
          · rw [htr] at ht; cases ht
          · exact ih st r hr' htr
      | true =>
          rw [runRecords_cons_ok _ _ _ _ _ (by rw [matchBody, ht]; rfl)]
          rcases List.mem_cons.1 hr with rfl | hr'
          · obtain ⟨m, hm⟩ := (processMatch_c1 now st r).2
            have hev := (importMatches_c1step now ds
              (processMatch now st r)).2
            obtain ⟨m', hm', _, _⟩ :=
              matchesEvolve_find? (extMatchKey r) hm hev
            exact ⟨m', hm'⟩
          · exact ih (processMatch now st d) r hr' htr

end ClaimC1Effects

section ClaimC1

/-- C1 counterexample: the file holding one match record without a matchid
has one record present, but the second import (like the first) returns 0,
not 1 — skipped records are excluded from the count on every import. -/
theorem c1_second_count_counterexample :
    (importMatches "2025-01-01"
        (importMatches "2025-01-01" emptyStore [{}]).2 [{}]).1 = 0
    ∧ [({} : MatchRecord)].length = 1 := ⟨rfl, rfl⟩

/-- C1 (amended): importing the same list of match records twice, starting
from the empty store, leaves every externally keyed table free of
duplicates; for each record with a nonempty external match id there is
exactly one Match row carrying its key after the second import, and it is
the same row (same internal id) the first import left; and the second of
the imports returns a count equal to the number of records carrying a nonempty
external match id — all of them updates. -/
theorem c1_reimport_updates_not_duplicates (now now' : String)
    (data : List MatchRecord) :
    (importMatches now' (importMatches now emptyStore data).2 data).1
      = validMatchCount data
    ∧ StoreUniqueExt
        (importMatches now' (importMatches now emptyStore data).2 data).2
    ∧ ∀ r ∈ data, truthyInt r.matchid = true →
        ∃ m1 m2,
          (importMatches now emptyStore data).2.matchRows.find?
              (fun x => x.fogisId = some (extMatchKey r)) = some m1
          ∧ (importMatches now'
              (importMatches now emptyStore data).2 data).2.matchRows.find?
              (fun x => x.fogisId = some (extMatchKey r)) = some m2
          ∧ m2.id = m1.id
          ∧ (importMatches now'
              (importMatches now emptyStore data).2 data).2.matchRows.countP
              (fun x => x.fogisId = some (extMatchKey r)) = 1 := by
  have hemp : StoreUniqueExt emptyStore :=
    ⟨List.nodup_nil, List.nodup_nil, List.nodup_nil, List.nodup_nil,
     List.nodup_nil, List.nodup_nil, List.nodup_nil, List.nodup_nil,
     List.nodup_nil⟩
  have h1 : C1Step emptyStore (importMatches now emptyStore data).2 :=
    importMatches_c1step now data emptyStore
  have h2 : C1Step (importMatches now emptyStore data).2
      (importMatches now' (importMatches now emptyStore data).2 data).2 :=
    importMatches_c1step now' data (importMatches now emptyStore data).2
  have hu1 : StoreUniqueExt (importMatches now emptyStore data).2 :=
    h1.1 hemp
  have hu2 : StoreUniqueExt
      (importMatches now' (importMatches now emptyStore data).2 data).2 :=
    h2.1 hu1
  refine ⟨importMatches_count now' data _, hu2, ?_⟩
  intro r hr htr
  obtain ⟨m1, hm1⟩ := importMatches_presence now data emptyStore r hr htr
  obtain ⟨m2, hm2, hid, _⟩ := matchesEvolve_find? (extMatchKey r) hm1 h2.2
  refine ⟨m1, m2, hm1, hm2, hid, ?_⟩
  exact countP_eq_one_of_uniqueBy MatchRow.fogisId _ (some (extMatchKey r))
    hu2.2.2.2.2.2.2.2.2 m2 hm2

/-- The person keys of the sample referee-assignment entry. -/
def c1RefPerson : PersonData :=
  { personid := some 1082017, personnamn := some "Test Referee",
    namn := some "Test Referee" }

/-- A sample referee-assignment entry for role id 1. -/
def c1RefEntry : RefAssignmentRecord :=
  { domaruppdragid := some 6850301, domareid := some 6600,
    domarrollid := some 1, domarrollnamn := some "Huvuddomare",
    domarrollkortnamn := some "Dom", person := c1RefPerson }

/-- A full sample match record (the spec's end-to-end scenario). -/
def c1MatchRec : MatchRecord :=
  { matchid := some 6169913,
    matchnr := some "000026015",
    fotbollstypid := some 1,
    lag1lagid := some 61174,
    lag1foreningid := some 11145,
    lag1namn := some "Hestrafors IF",
    lag2lagid := some 30415,
    lag2foreningid := some 9528,
    lag2namn := some "IF Böljan Falkenberg",
    anlaggningid := some 29424,
    anlaggningnamn := some "Bollevi Konstgräs",
    speldatum := some "2025-04-11",
    avsparkstid := some "19:00",
    tavlingid := some 123399,
    tavlingnamn := some "Div 2 Västra Götaland, herr 2025",
    tavlingskategoriid := some 728,
    tavlingskategorinamn := some "Division 2, herrar",
    antalaskadare := some 246,
    domaruppdraglista := some [c1RefEntry] }

/-- Witness for the amended C1 at the sample match record: the
second import counts the one record as an update, and exactly one Match row with
external id "6169913" exists afterwards, the one the first import
created. -/
theorem c1_reimport_updates_not_duplicates_witness :
    (importMatches "2025-01-01"
        (importMatches "2025-01-01" emptyStore [c1MatchRec]).2
        [c1MatchRec]).1 = 1
    ∧ ∃ m1 m2,
        (importMatches "2025-01-01" emptyStore [c1MatchRec]).2.matchRows.find?
            (fun x => x.fogisId = some (extMatchKey c1MatchRec)) = some m1
        ∧ (importMatches "2025-01-01"
            (importMatches "2025-01-01" emptyStore [c1MatchRec]).2
            [c1MatchRec]).2.matchRows.find?
            (fun x => x.fogisId = some (extMatchKey c1MatchRec)) = some m2
        ∧ m2.id = m1.id
        ∧ (importMatches "2025-01-01"
            (importMatches "2025-01-01" emptyStore [c1MatchRec]).2
            [c1MatchRec]).2.matchRows.countP
            (fun x => x.fogisId = some (extMatchKey c1MatchRec)) = 1 := by
  obtain ⟨hcount, _, hall⟩ := c1_reimport_updates_not_duplicates
    "2025-01-01" "2025-01-01" [c1MatchRec]
  refine ⟨?_, hall c1MatchRec (List.mem_singleton.2 rfl) rfl⟩
  rw [hcount]
  rfl

end ClaimC1

end RefereeStats
